import Mathlib

/-!
Shallow embedding of the server-side simulation core of the car-combat-arena
repository (TypeScript).  JavaScript numbers are modelled as exact rationals;
the transcendental library functions Math.cos, Math.sin and Math.sqrt are
modelled by an abstract structure of functions satisfying the algebraic facts
the proofs need, with a concrete computable instance used for evaluation.
Source files embedded here: shared/constants (part_004), shared/utils
(vector.ts, part_002, part_003), shared/types (common.ts, entities.ts),
server/systems/PhysicsSystem.ts, server/systems (part_015: CombatSystem and
CollisionSystem), server/managers/GameStateManager.ts,
server/managers/BoonManager.ts, server/managers/RoomManager.ts and
server/core/GameEngine (part_013).
-/

namespace CarCombat

/-- Abstract model of the JavaScript Math library functions used by the
simulation.  The fields are the algebraic facts the source relies on. -/
structure JsMath where
  cos : ℚ → ℚ
  sin : ℚ → ℚ
  sqrt : ℚ → ℚ
  cos_sq_add_sin_sq : ∀ a, cos a * cos a + sin a * sin a = 1
  sqrt_mul_self : ∀ a, sqrt (a * a) = |a|
  sqrt_nonneg : ∀ a, 0 ≤ sqrt a

/-- JavaScript Math.floor on a rational, returned as a rational. -/
def jsFloor (x : ℚ) : ℚ := ((Int.floor x : ℤ) : ℚ)

/-- JavaScript Math.round on a rational (round half toward positive infinity). -/
def jsRound (x : ℚ) : ℚ := ((Int.floor (x + 1 / 2) : ℤ) : ℚ)

/-- The exact rational value of the IEEE-754 double Math.PI. -/
def MATH_PI : ℚ := 884279719003555 / 281474976710656

/-! Constants from shared/constants (part_004). -/

def GAME_WIDTH : ℚ := 1200
def GAME_HEIGHT : ℚ := 800
def CAR_WIDTH : ℚ := 50
def CAR_HEIGHT : ℚ := 30
def CAR_FRICTION : ℚ := 98 / 100

def CANNON_BULLET_SPEED : ℚ := 12
def CANNON_BULLET_DAMAGE : ℚ := 35
def CANNON_BULLET_SIZE : ℚ := 10
def CANNON_COOLDOWN : ℚ := 1200
def MACHINEGUN_BULLET_SPEED : ℚ := 18
def MACHINEGUN_BULLET_DAMAGE : ℚ := 5
def MACHINEGUN_BULLET_SIZE : ℚ := 3
def MACHINEGUN_COOLDOWN : ℚ := 100
def BULLET_SIZE : ℚ := 5

def SHIELD_RECHARGE_DELAY : ℚ := 3000
def SCORE_PER_HIT : ℚ := 10
def SCORE_PER_KILL : ℚ := 100

def COLLISION_DAMAGE_THRESHOLD : ℚ := 3
def COLLISION_DAMAGE_MULTIPLIER : ℚ := 2

def BOON_PICKUP_RADIUS : ℚ := 35
def BOON_SPAWN_INTERVAL : ℚ := 5000
def BOON_MAX_COUNT : ℕ := 3
def BOON_LIFETIME : ℚ := 15000
def BOON_SPAWN_MARGIN : ℚ := 100

/-- Weapon kind (shared/constants). -/
inductive WeaponType where
  | cannon : WeaponType
  | machinegun : WeaponType
deriving DecidableEq

/-- Wall material kind (shared/constants). -/
inductive WallMaterial where
  | concrete : WallMaterial
  | wood : WallMaterial
  | metal : WallMaterial
  | glass : WallMaterial
deriving DecidableEq

/-- Wall material configuration (shared/constants WALL_MATERIALS entries). -/
structure WallMaterialConfig where
  health : ℚ
  color : String
  damageResistance : ℚ
deriving DecidableEq

/-- The WALL_MATERIALS table from shared/constants. -/
def WALL_MATERIALS : WallMaterial → WallMaterialConfig
  | WallMaterial.concrete => ⟨200, "#6b7280", 3 / 10⟩
  | WallMaterial.wood => ⟨80, "#92400e", 0⟩
  | WallMaterial.metal => ⟨300, "#374151", 5 / 10⟩
  | WallMaterial.glass => ⟨40, "#67e8f9", 0⟩

/-- Boon kind (shared/constants). -/
inductive BoonType where
  | health : BoonType
  | shield : BoonType
  | speed : BoonType
  | damage : BoonType
  | rapidfire : BoonType
deriving DecidableEq

/-- Game status (shared/types/common.ts). -/
inductive GameStatus where
  | waiting : GameStatus
  | playing : GameStatus
  | gameover : GameStatus
deriving DecidableEq

/-- Player spawn configuration entry (PLAYER_SPAWN_POSITIONS). -/
structure SpawnPosition where
  x : ℚ
  y : ℚ
  angle : ℚ
deriving DecidableEq

/-- The PLAYER_SPAWN_POSITIONS table from shared/constants. -/
def PLAYER_SPAWN_POSITIONS : List SpawnPosition :=
  [⟨150, GAME_HEIGHT / 2, 0⟩, ⟨GAME_WIDTH - 150, GAME_HEIGHT / 2, MATH_PI⟩]

/-- 2D vector (shared/types Vector2). -/
structure Vector2 where
  x : ℚ
  y : ℚ
deriving DecidableEq

namespace Vector

/-- Vector.add from shared/utils/vector.ts. -/
def add (a b : Vector2) : Vector2 := ⟨a.x + b.x, a.y + b.y⟩

/-- Vector.fromAngle from shared/utils/vector.ts. -/
def fromAngle (M : JsMath) (angle magnitude : ℚ) : Vector2 :=
  ⟨M.cos angle * magnitude, M.sin angle * magnitude⟩

end Vector

/-- Simulation-relevant fields of CarState (shared/types/entities.ts); the
purely cosmetic readonly fields (colors, wing style, customization record,
display name) do not participate in the simulation and are omitted. -/
structure CarState where
  id : String
  x : ℚ
  y : ℚ
  angle : ℚ
  velocityX : ℚ
  velocityY : ℚ
  health : ℚ
  maxHealth : ℚ
  shield : ℚ
  maxShield : ℚ
  shieldRechargeTimer : ℚ
  score : ℚ
  isBoosting : Bool
  boostFuel : ℚ
  maxBoostFuel : ℚ
  boostRechargeTimer : ℚ
  maxSpeed : ℚ
  boostSpeed : ℚ
  acceleration : ℚ
  turnSpeed : ℚ
  bulletDamageMultiplier : ℚ
  gunEffectId : String
deriving DecidableEq

/-- Bullet (shared/types/entities.ts). -/
structure Bullet where
  id : String
  ownerId : String
  x : ℚ
  y : ℚ
  velocityX : ℚ
  velocityY : ℚ
  angle : ℚ
  damage : ℚ
  weaponType : WeaponType
  size : ℚ
  gunEffectId : String
deriving DecidableEq

/-- Wall (shared/types/entities.ts). -/
structure Wall where
  id : String
  x : ℚ
  y : ℚ
  width : ℚ
  height : ℚ
  color : String
  material : WallMaterial
  health : ℚ
  maxHealth : ℚ
deriving DecidableEq

/-- Boon (shared/types/entities.ts). -/
structure Boon where
  id : String
  x : ℚ
  y : ℚ
  boonType : BoonType
  spawnTime : ℚ
  lifetime : ℚ
deriving DecidableEq

/-- Player input snapshot (shared/types/common.ts PlayerInput).  The two
optional mouse-control fields are modelled with Bool and Option. -/
structure PlayerInput where
  forward : Bool
  backward : Bool
  left : Bool
  right : Bool
  shoot : Bool
  shootCannon : Bool
  shootMachineGun : Bool
  boost : Bool
  targetAngle : Option ℚ
  useMouseControl : Bool
deriving DecidableEq

/-- Complete game state (shared/types GameState).  The Record of players is
modelled as a list in key-insertion order, keyed by the cars' id fields. -/
structure GameState where
  players : List CarState
  bullets : List Bullet
  walls : List Wall
  boons : List Boon
  gameStatus : GameStatus
  winner : Option String
deriving DecidableEq

/-- rectangleIntersectsWall from shared/utils (part_003): axis-aligned
rectangle-versus-wall overlap test. -/
def rectangleIntersectsWall (rx ry rWidth rHeight : ℚ) (wall : Wall) : Bool :=
  decide (¬ (rx + rWidth / 2 < wall.x - wall.width / 2 ∨
             rx - rWidth / 2 > wall.x + wall.width / 2 ∨
             ry + rHeight / 2 < wall.y - wall.height / 2 ∨
             ry - rHeight / 2 > wall.y + wall.height / 2))

namespace PhysicsSystem

/-- First normalization loop of rotateTowardsTarget: while the difference is
greater than PI, subtract 2 PI. -/
def normDown (d : ℚ) : ℚ :=
  if d > MATH_PI then normDown (d - 2 * MATH_PI) else d
termination_by (Int.ceil (d / (2 * MATH_PI))).toNat
decreasing_by
  have hpi : (0 : ℚ) < MATH_PI := by norm_num [MATH_PI]
  have h2pi : (0 : ℚ) < 2 * MATH_PI := by linarith
  have hstep : (d - 2 * MATH_PI) / (2 * MATH_PI) = d / (2 * MATH_PI) - 1 := by
    field_simp
  have hpos : 0 < d / (2 * MATH_PI) := by
    apply div_pos _ h2pi
    linarith
  have hceil : 0 < Int.ceil (d / (2 * MATH_PI)) := Int.ceil_pos.mpr hpos
  have hsub : Int.ceil ((d - 2 * MATH_PI) / (2 * MATH_PI)) =
      Int.ceil (d / (2 * MATH_PI)) - 1 := by
    rw [hstep]
    exact_mod_cast Int.ceil_sub_int (d / (2 * MATH_PI)) 1
  rw [hsub]
  omega

/-- Second normalization loop of rotateTowardsTarget: while the difference is
less than -PI, add 2 PI. -/
def normUp (d : ℚ) : ℚ :=
  if d < -MATH_PI then normUp (d + 2 * MATH_PI) else d
termination_by (Int.ceil (-d / (2 * MATH_PI))).toNat
decreasing_by
  have hpi : (0 : ℚ) < MATH_PI := by norm_num [MATH_PI]
  have h2pi : (0 : ℚ) < 2 * MATH_PI := by linarith
  have hstep : -(d + 2 * MATH_PI) / (2 * MATH_PI) = -d / (2 * MATH_PI) - 1 := by
    field_simp
    ring
  have hpos : 0 < -d / (2 * MATH_PI) := by
    apply div_pos _ h2pi
    linarith
  have hceil : 0 < Int.ceil (-d / (2 * MATH_PI)) := Int.ceil_pos.mpr hpos
  have hsub : Int.ceil (-(d + 2 * MATH_PI) / (2 * MATH_PI)) =
      Int.ceil (-d / (2 * MATH_PI)) - 1 := by
    rw [hstep]
    exact_mod_cast Int.ceil_sub_int (-d / (2 * MATH_PI)) 1
  rw [hsub]
  omega

/-- PhysicsSystem.rotateTowardsTarget: normalize the shortest angle
difference to the range bounded by PI, then rotate by at most turnSpeed
without overshoot. -/
def rotateTowardsTarget (car : CarState) (targetAngle turnSpeed : ℚ) : CarState :=
  let angleDiff := normUp (normDown (targetAngle - car.angle))
  if |angleDiff| < turnSpeed then { car with angle := targetAngle }
  else if angleDiff > 0 then { car with angle := car.angle + turnSpeed }
  else { car with angle := car.angle - turnSpeed }

/-- PhysicsSystem.applyRotation: mouse control takes priority when active,
otherwise keyboard left/right rotation at the car's own turnSpeed. -/
def applyRotation (car : CarState) (input : PlayerInput) : CarState :=
  let turnSpeed := car.turnSpeed
  match input.useMouseControl, input.targetAngle with
  | true, some t => rotateTowardsTarget car t turnSpeed
  | _, _ =>
    let car1 := if input.left then { car with angle := car.angle - turnSpeed } else car
    if input.right then { car1 with angle := car1.angle + turnSpeed } else car1

/-- PhysicsSystem.applyAcceleration: accelerate along the facing angle using
the car's own acceleration stat; backward uses a 0.5 multiplier. -/
def applyAcceleration (M : JsMath) (car : CarState) (input : PlayerInput) : CarState :=
  let acceleration := car.acceleration
  let car1 :=
    if input.forward then
      { car with velocityX := car.velocityX + M.cos car.angle * acceleration,
                 velocityY := car.velocityY + M.sin car.angle * acceleration }
    else car
  if input.backward then
    let reverseMultiplier : ℚ := 1 / 2
    { car1 with velocityX := car1.velocityX - M.cos car1.angle * acceleration * reverseMultiplier,
                velocityY := car1.velocityY - M.sin car1.angle * acceleration * reverseMultiplier }
  else car1

/-- PhysicsSystem.applyFriction: uniform multiplicative friction. -/
def applyFriction (car : CarState) : CarState :=
  { car with velocityX := car.velocityX * CAR_FRICTION,
             velocityY := car.velocityY * CAR_FRICTION }

/-- PhysicsSystem.limitSpeed: clamp speed to maxSpeed, or boostSpeed when
boosting. -/
def limitSpeed (M : JsMath) (car : CarState) (isBoosting : Bool) : CarState :=
  let maxSpeed := if isBoosting then car.boostSpeed else car.maxSpeed
  let speed := M.sqrt (car.velocityX * car.velocityX + car.velocityY * car.velocityY)
  if speed > maxSpeed then
    let ratio := maxSpeed / speed
    { car with velocityX := car.velocityX * ratio, velocityY := car.velocityY * ratio }
  else car

/-- PhysicsSystem.updatePosition: integrate position by velocity. -/
def updatePosition (car : CarState) : CarState :=
  { car with x := car.x + car.velocityX, y := car.y + car.velocityY }

/-- PhysicsSystem.constrainToBounds: clamp position to the arena bounds. -/
def constrainToBounds (car : CarState) : CarState :=
  let halfWidth := CAR_WIDTH / 2
  let halfHeight := CAR_HEIGHT / 2
  { car with x := max halfWidth (min (GAME_WIDTH - halfWidth) car.x),
             y := max halfHeight (min (GAME_HEIGHT - halfHeight) car.y) }

/-- PhysicsSystem.updateCar: the fixed per-tick order of operations. -/
def updateCar (M : JsMath) (car : CarState) (input : PlayerInput) : CarState :=
  constrainToBounds
    (updatePosition
      (limitSpeed M
        (applyFriction
          (applyAcceleration M
            (applyRotation car input) input)) input.boost))

/-- PhysicsSystem.getSpeed. -/
def getSpeed (M : JsMath) (car : CarState) : ℚ :=
  M.sqrt (car.velocityX * car.velocityX + car.velocityY * car.velocityY)

/-- PhysicsSystem.getRelativeSpeed. -/
def getRelativeSpeed (M : JsMath) (car1 car2 : CarState) : ℚ :=
  let relVelX := car1.velocityX - car2.velocityX
  let relVelY := car1.velocityY - car2.velocityY
  M.sqrt (relVelX * relVelX + relVelY * relVelY)

end PhysicsSystem

namespace CollisionSystem

/-- Collision detection result (CollisionSystem): damage is present exactly
when the collision occurred. -/
structure CollisionResult where
  occurred : Bool
  damage : Option ℚ
deriving DecidableEq

/-- CollisionSystem.checkBulletCarCollision: axis-aligned overlap with a
5-unit hit-box padding. -/
def checkBulletCarCollision (bullet : Bullet) (car : CarState) : Bool :=
  let dx := |bullet.x - car.x|
  let dy := |bullet.y - car.y|
  let hitBoxPadding : ℚ := 5
  decide (dx < CAR_WIDTH / 2 + hitBoxPadding ∧ dy < CAR_HEIGHT / 2 + hitBoxPadding)

/-- CollisionSystem.isBulletOutOfBounds. -/
def isBulletOutOfBounds (bullet : Bullet) (width height : ℚ) : Bool :=
  decide (bullet.x < 0 ∨ bullet.x > width ∨ bullet.y < 0 ∨ bullet.y > height)

/-- CollisionSystem.applyBounce: exchange the two cars' velocities scaled by
the 0.5 bounce multiplier. -/
def applyBounce (car1 car2 : CarState) : CarState × CarState :=
  let bounceMultiplier : ℚ := 1 / 2
  let tempVx := car1.velocityX * bounceMultiplier
  let tempVy := car1.velocityY * bounceMultiplier
  ({ car1 with velocityX := car2.velocityX * bounceMultiplier,
               velocityY := car2.velocityY * bounceMultiplier },
   { car2 with velocityX := tempVx, velocityY := tempVy })

/-- CollisionSystem.checkCarCollision: detect and resolve a car-to-car
collision, returning the two updated cars and the result record. -/
def checkCarCollision (M : JsMath) (car1 car2 : CarState) :
    CarState × CarState × CollisionResult :=
  let dx := car1.x - car2.x
  let dy := car1.y - car2.y
  let distance := M.sqrt (dx * dx + dy * dy)
  let minDistance := CAR_WIDTH
  if distance ≥ minDistance then (car1, car2, ⟨false, none⟩)
  else
    let overlap := minDistance - distance
    let pushX := dx / distance * overlap * (1 / 2)
    let pushY := dy / distance * overlap * (1 / 2)
    let car1a := { car1 with x := car1.x + pushX, y := car1.y + pushY }
    let car2a := { car2 with x := car2.x - pushX, y := car2.y - pushY }
    let relativeSpeed := PhysicsSystem.getRelativeSpeed M car1a car2a
    let damage : ℚ :=
      if relativeSpeed > COLLISION_DAMAGE_THRESHOLD then
        jsFloor (relativeSpeed * COLLISION_DAMAGE_MULTIPLIER)
      else 0
    let car1b :=
      if relativeSpeed > COLLISION_DAMAGE_THRESHOLD then
        { car1a with health := car1a.health - damage }
      else car1a
    let car2b :=
      if relativeSpeed > COLLISION_DAMAGE_THRESHOLD then
        { car2a with health := car2a.health - damage }
      else car2a
    let bounced := applyBounce car1b car2b
    (bounced.1, bounced.2, ⟨true, some damage⟩)

/-- CollisionSystem.checkAllCarCollisions: resolve every ordered pair i < j of
cars, skipping pairs in which either car is dead; the list is updated in
place pair after pair. -/
def pairLoop (M : JsMath) (car1 : CarState) :
    List CarState → CarState × List CarState
  | [] => (car1, [])
  | car2 :: rest =>
    if car1.health ≤ 0 ∨ car2.health ≤ 0 then
      let r := pairLoop M car1 rest
      (r.1, car2 :: r.2)
    else
      let c := checkCarCollision M car1 car2
      let r := pairLoop M c.1 rest
      (r.1, c.2.1 :: r.2)

/-- The inner pair loop keeps the list of remaining cars the same length. -/
theorem pairLoop_length (M : JsMath) (car1 : CarState) (l : List CarState) :
    (pairLoop M car1 l).2.length = l.length := by
  induction l generalizing car1 with
  | nil => rfl
  | cons car2 rest ih =>
    by_cases h : car1.health ≤ 0 ∨ car2.health ≤ 0
    · simp [pairLoop, h, ih]
    · simp [pairLoop, h, ih]

/-- Outer loop of CollisionSystem.checkAllCarCollisions. -/
def checkAllCarCollisions (M : JsMath) : List CarState → List CarState
  | [] => []
  | car :: rest =>
    let r := pairLoop M car rest
    r.1 :: checkAllCarCollisions M r.2
termination_by l => l.length
decreasing_by
  simp [pairLoop_length]

/-- CollisionSystem.checkBulletWallCollision. -/
def checkBulletWallCollision (bullet : Bullet) (wall : Wall) : Bool :=
  rectangleIntersectsWall bullet.x bullet.y BULLET_SIZE BULLET_SIZE wall

end CollisionSystem

namespace CombatSystem

/-- Result of wall damage calculation (CombatSystem WallDamageResult). -/
structure WallDamageResult where
  wallId : String
  damage : ℚ
  destroyed : Bool
deriving DecidableEq

/-- Weapon configuration (CombatSystem WeaponConfig). -/
structure WeaponConfig where
  speed : ℚ
  damage : ℚ
  size : ℚ
  cooldown : ℚ
deriving DecidableEq

/-- The WEAPON_CONFIGS table from CombatSystem. -/
def WEAPON_CONFIGS : WeaponType → WeaponConfig
  | WeaponType.cannon =>
    ⟨CANNON_BULLET_SPEED, CANNON_BULLET_DAMAGE, CANNON_BULLET_SIZE, CANNON_COOLDOWN⟩
  | WeaponType.machinegun =>
    ⟨MACHINEGUN_BULLET_SPEED, MACHINEGUN_BULLET_DAMAGE, MACHINEGUN_BULLET_SIZE,
      MACHINEGUN_COOLDOWN⟩

/-- Lookup in a per-entity cooldown map (Map.get with default 0). -/
def cooldownGet (m : List (String × ℚ)) (carId : String) : ℚ :=
  match m.find? (fun e => e.fst = carId) with
  | some e => e.snd
  | none => 0

/-- Update of a per-entity cooldown map (Map.set: replace in place if the key
exists, else append). -/
def cooldownSet (m : List (String × ℚ)) (carId : String) (t : ℚ) : List (String × ℚ) :=
  if m.any (fun e => e.fst = carId) then
    m.map (fun e => if e.fst = carId then (carId, t) else e)
  else m ++ [(carId, t)]

/-- CombatSystem.createBullet: spawn position offset forward from the car,
velocity along the car's angle, damage scaled by the car's tier multiplier
and rounded. -/
def createBullet (M : JsMath) (car : CarState) (weaponType : WeaponType)
    (bulletId : String) : Bullet :=
  let config := WEAPON_CONFIGS weaponType
  let spawnOffset := CAR_WIDTH / 2 + 10
  let position := Vector.add ⟨car.x, car.y⟩ (Vector.fromAngle M car.angle spawnOffset)
  let velocity := Vector.fromAngle M car.angle config.speed
  let scaledDamage := jsRound (config.damage * car.bulletDamageMultiplier)
  { id := bulletId, ownerId := car.id, x := position.x, y := position.y,
    velocityX := velocity.x, velocityY := velocity.y, angle := car.angle,
    damage := scaledDamage, weaponType := weaponType, size := config.size,
    gunEffectId := car.gunEffectId }

/-- Outcome of CombatSystem.tryShootWeapon: the returned boolean plus the
updated bullet list and cooldown map (mutated in the source). -/
structure ShootOutcome where
  fired : Bool
  bullets : List Bullet
  lastShootTimes : List (String × ℚ)
deriving DecidableEq

/-- CombatSystem.tryShootWeapon: reject when the weapon cooldown has not
elapsed or when the spawn position (offset forward from the car) overlaps
some wall; otherwise record the fire time and append a new bullet. -/
def tryShootWeapon (M : JsMath) (now : ℚ) (car : CarState) (bullets : List Bullet)
    (walls : List Wall) (weaponType : WeaponType)
    (cooldownMap : List (String × ℚ)) (bulletId : String) : ShootOutcome :=
  let lastShoot := cooldownGet cooldownMap car.id
  let config := WEAPON_CONFIGS weaponType
  if now - lastShoot < config.cooldown then ⟨false, bullets, cooldownMap⟩
  else
    let spawnOffset := CAR_WIDTH / 2 + 10
    let spawnPosition := Vector.add ⟨car.x, car.y⟩ (Vector.fromAngle M car.angle spawnOffset)
    if walls.any (fun wall =>
        rectangleIntersectsWall spawnPosition.x spawnPosition.y config.size config.size wall) then
      ⟨false, bullets, cooldownMap⟩
    else
      ⟨true, bullets ++ [createBullet M car weaponType bulletId],
        cooldownSet cooldownMap car.id now⟩

/-- CombatSystem.applyWallDamage: damage reduced by the material's
damage-resistance factor and floored; the wall is destroyed when its updated
health is at most 0. -/
def applyWallDamage (bullet : Bullet) (wall : Wall) : Wall × WallDamageResult :=
  let materialConfig := WALL_MATERIALS wall.material
  let effectiveDamage := jsFloor (bullet.damage * (1 - materialConfig.damageResistance))
  let wall1 := { wall with health := wall.health - effectiveDamage }
  (wall1, ⟨wall.id, effectiveDamage, decide (wall1.health ≤ 0)⟩)

/-- CombatSystem.applyDamage restricted to the target car: shield absorbs
first, the remainder goes to health, and any hit resets the shield-recharge
delay timer. -/
def applyDamageToTarget (bullet : Bullet) (target : CarState) : CarState :=
  let remainingDamage := bullet.damage
  let t1 :=
    if target.shield > 0 then
      let shieldDamage := min target.shield remainingDamage
      { target with shield := target.shield - shieldDamage }
    else target
  let remaining1 :=
    if target.shield > 0 then remainingDamage - min target.shield remainingDamage
    else remainingDamage
  let t2 := if remaining1 > 0 then { t1 with health := t1.health - remaining1 } else t1
  { t2 with shieldRechargeTimer := SHIELD_RECHARGE_DELAY }

/-- CombatSystem.applyDamage on the player map: mutate the target, then award
the shooter the per-hit score plus the kill score exactly when the target's
health dropped to at most 0. -/
def applyDamage (bullet : Bullet) (target : CarState) (players : List CarState) :
    List CarState :=
  let target1 := applyDamageToTarget bullet target
  let players1 := players.map (fun p => if p.id = target.id then target1 else p)
  players1.map (fun p =>
    if p.id = bullet.ownerId then
      { p with score := p.score + SCORE_PER_HIT +
          (if target1.health ≤ 0 then SCORE_PER_KILL else 0) }
    else p)

/-- Wall loop of CombatSystem.updateBullets for one bullet: walls already
marked for removal are skipped; the first colliding wall is damaged in place
and ends the loop. -/
def bulletWallsLoop (bullet : Bullet) (wallsToRemove : List String) :
    List Wall → Option (List Wall × WallDamageResult)
  | [] => none
  | wall :: rest =>
    if wallsToRemove.contains wall.id then
      match bulletWallsLoop bullet wallsToRemove rest with
      | some r => some (wall :: r.1, r.2)
      | none => none
    else if CollisionSystem.checkBulletWallCollision bullet wall then
      let r := applyWallDamage bullet wall
      some (r.1 :: rest, r.2)
    else
      match bulletWallsLoop bullet wallsToRemove rest with
      | some r => some (wall :: r.1, r.2)
      | none => none

/-- Player loop of CombatSystem.updateBullets for one bullet: the bullet's
owner and dead players are skipped; the first colliding living player is
returned. -/
def bulletPlayersLoop (bullet : Bullet) : List CarState → Option CarState
  | [] => none
  | p :: rest =>
    if p.id = bullet.ownerId then bulletPlayersLoop bullet rest
    else if p.health ≤ 0 then bulletPlayersLoop bullet rest
    else if CollisionSystem.checkBulletCarCollision bullet p then some p
    else bulletPlayersLoop bullet rest

/-- Mutable state threaded through the bullet loop of
CombatSystem.updateBullets. -/
structure BulletPassState where
  players : List CarState
  walls : List Wall
  bulletsToRemove : List String
  wallsToRemove : List String
  wallDamageResults : List WallDamageResult
deriving DecidableEq

/-- The position update lines of the bullet loop: the bullet's position is
advanced by its velocity. -/
def advanceBullet (bullet0 : Bullet) : Bullet :=
  { bullet0 with x := bullet0.x + bullet0.velocityX,
                 y := bullet0.y + bullet0.velocityY }

/-- Body of the bullet loop of CombatSystem.updateBullets for one bullet:
advance the bullet, then test out-of-bounds, then walls, then players; the
first cause found removes the bullet and ends its evaluation. -/
def processBullet (acc : BulletPassState) (bullet0 : Bullet) :
    BulletPassState × Bullet :=
  let bullet := advanceBullet bullet0
  if CollisionSystem.isBulletOutOfBounds bullet GAME_WIDTH GAME_HEIGHT then
    ({ acc with bulletsToRemove := acc.bulletsToRemove ++ [bullet.id] }, bullet)
  else
    match bulletWallsLoop bullet acc.wallsToRemove acc.walls with
    | some r =>
      ({ acc with
          walls := r.1,
          wallDamageResults := acc.wallDamageResults ++ [r.2],
          wallsToRemove :=
            if r.2.destroyed then acc.wallsToRemove ++ [r.2.wallId]
            else acc.wallsToRemove,
          bulletsToRemove := acc.bulletsToRemove ++ [bullet.id] }, bullet)
    | none =>
      match bulletPlayersLoop bullet acc.players with
      | some target =>
        ({ acc with
            players := applyDamage bullet target acc.players,
            bulletsToRemove := acc.bulletsToRemove ++ [bullet.id] }, bullet)
      | none => (acc, bullet)

/-- The bullet loop of CombatSystem.updateBullets over all bullets. -/
def updateBulletsLoop (acc : BulletPassState) :
    List Bullet → BulletPassState × List Bullet
  | [] => (acc, [])
  | b :: bs =>
    let r := processBullet acc b
    let rest := updateBulletsLoop r.1 bs
    (rest.1, r.2 :: rest.2)

/-- CombatSystem.updateBullets: advance all bullets, resolve their collisions
with bounds, walls and players, then filter out removed bullets and destroyed
walls; the second component is lastWallDamageResults. -/
def updateBullets (state : GameState) : GameState × List WallDamageResult :=
  let start : BulletPassState := ⟨state.players, state.walls, [], [], []⟩
  let r := updateBulletsLoop start state.bullets
  let bullets1 := r.2.filter (fun b => ! r.1.bulletsToRemove.contains b.id)
  let walls1 := r.1.walls.filter (fun w => ! r.1.wallsToRemove.contains w.id)
  ({ state with players := r.1.players, bullets := bullets1, walls := walls1 },
    r.1.wallDamageResults)

end CombatSystem

namespace GameStateManager

/-- Result record of GameStateManager.checkWinCondition. -/
structure WinCheckResult where
  hasWinner : Bool
  winnerId : Option String
deriving DecidableEq

/-- GameStateManager.checkWinCondition: fewer than two players means no
decision; then exactly one living player wins, all players dead is a draw,
and anything else is no decision. -/
def checkWinCondition (players : List CarState) : WinCheckResult :=
  if players.length < 2 then ⟨false, none⟩
  else
    let alivePlayers := players.filter (fun p => decide (p.health > 0))
    let deadPlayers := players.filter (fun p => decide (p.health ≤ 0))
    if deadPlayers.length = 0 then ⟨false, none⟩
    else if alivePlayers.length = 1 then
      ⟨true, alivePlayers.head?.map (fun p => p.id)⟩
    else if alivePlayers.length = 0 then ⟨true, some "draw"⟩
    else ⟨false, none⟩

end GameStateManager

namespace GameEngine

/-- GameEngine.endGame: status becomes gameover and the winner field is set,
with the draw marker mapped to a null winner. -/
def endGame (state : GameState) (winnerId : String) : GameState :=
  { state with gameStatus := GameStatus.gameover,
               winner := if winnerId = "draw" then none else some winnerId }

/-- GameEngine.checkWinCondition: consult the state manager and end the game
when it reports a winner. -/
def checkWinCondition (state : GameState) : GameState :=
  let result := GameStateManager.checkWinCondition state.players
  match result.winnerId with
  | some w => if result.hasWinner then endGame state w else state
  | none => state

end GameEngine

namespace BoonManager

/-- Private state of BoonManager. -/
structure ManagerState where
  boons : List Boon
  lastSpawnTime : ℚ
  spawnInterval : ℚ
deriving DecidableEq

/-- BoonManager.isValidSpawnLocation: far enough from both player spawn
points, from every existing boon, and outside every wall box expanded by half
the spawn margin. -/
def isValidSpawnLocation (M : JsMath) (x y : ℚ) (walls : List Wall)
    (boons : List Boon) : Bool :=
  if PLAYER_SPAWN_POSITIONS.any (fun spawn =>
      decide (M.sqrt ((x - spawn.x) * (x - spawn.x) + (y - spawn.y) * (y - spawn.y)) <
        BOON_SPAWN_MARGIN)) then false
  else if boons.any (fun boon =>
      decide (M.sqrt ((x - boon.x) * (x - boon.x) + (y - boon.y) * (y - boon.y)) <
        BOON_PICKUP_RADIUS * 2)) then false
  else if walls.any (fun wall =>
      decide (x ≥ wall.x - wall.width / 2 - BOON_SPAWN_MARGIN / 2 ∧
              x ≤ wall.x + wall.width / 2 + BOON_SPAWN_MARGIN / 2 ∧
              y ≥ wall.y - wall.height / 2 - BOON_SPAWN_MARGIN / 2 ∧
              y ≤ wall.y + wall.height / 2 + BOON_SPAWN_MARGIN / 2)) then false
  else true

/-- Attempt loop of BoonManager.trySpawnBoon: up to 20 candidate positions
drawn from the random stream are tried in order. -/
def trySpawnLoop (M : JsMath) (walls : List Wall) (boons : List Boon) :
    ℕ → List (ℚ × ℚ) → Option (ℚ × ℚ)
  | 0, _ => none
  | _, [] => none
  | n + 1, c :: cs =>
    if isValidSpawnLocation M c.1 c.2 walls boons then some c
    else trySpawnLoop M walls boons n cs

/-- BoonManager.trySpawnBoon: the Math.random draws are supplied as a stream
of candidate positions and a chosen boon kind; the new boon's spawn time is
the current clock value. -/
def trySpawnBoon (M : JsMath) (candidates : List (ℚ × ℚ)) (chosenType : BoonType)
    (newId : String) (now : ℚ) (walls : List Wall) (boons : List Boon) :
    Option Boon :=
  match trySpawnLoop M walls boons 20 candidates with
  | some c => some ⟨newId, c.1, c.2, chosenType, now, BOON_LIFETIME⟩
  | none => none

/-- BoonManager.update: remove expired boons first, then attempt one spawn
only when the remaining count is under the maximum and the spawn interval has
elapsed; the last spawn time advances only on a successful spawn. -/
def update (M : JsMath) (s : ManagerState) (now : ℚ) (walls : List Wall)
    (candidates : List (ℚ × ℚ)) (chosenType : BoonType) (newId : String) :
    ManagerState :=
  let boons1 := s.boons.filter (fun boon => decide (now - boon.spawnTime < boon.lifetime))
  if boons1.length < BOON_MAX_COUNT ∧ now - s.lastSpawnTime ≥ s.spawnInterval then
    match trySpawnBoon M candidates chosenType newId now walls boons1 with
    | some newBoon => { s with boons := boons1 ++ [newBoon], lastSpawnTime := now }
    | none => { s with boons := boons1 }
  else { s with boons := boons1 }

/-- Pickup loop of BoonManager.checkPickup: the first boon within pickup
range of the car is removed from the list and returned. -/
def pickupLoop (M : JsMath) (car : CarState) : List Boon → List Boon × Option Boon
  | [] => ([], none)
  | boon :: rest =>
    if M.sqrt ((car.x - boon.x) * (car.x - boon.x) + (car.y - boon.y) * (car.y - boon.y)) <
        BOON_PICKUP_RADIUS + CAR_WIDTH / 2 then
      (rest, some boon)
    else
      let r := pickupLoop M car rest
      (boon :: r.1, r.2)

/-- BoonManager.checkPickup: dead cars pick up nothing; otherwise the first
boon in range is consumed. -/
def checkPickup (M : JsMath) (s : ManagerState) (car : CarState) :
    ManagerState × Option Boon :=
  if car.health ≤ 0 then (s, none)
  else
    let r := pickupLoop M car s.boons
    ({ s with boons := r.1 }, r.2)

end BoonManager

namespace RoomManager

/-- The matchmaking queue: a Map keyed by socket, modelled as the list of
socket identifiers in insertion order (Map keys are unique). -/
abbrev MatchQueue := List ℕ

/-- RoomManager.tryMatchPlayers: with at least two queued sockets, find any
queued socket distinct from the one that just joined, dequeue both, then
create a room for the first and join the second; when room creation fails
both are re-enqueued.  The external room-creation and join calls are
abstracted by the two boolean parameters; the second component is the matched
pair (the room creator first) when matching succeeded. -/
def tryMatchPlayers (queue : MatchQueue) (newPlayerWs : ℕ)
    (roomCreationOk joinRoomOk : Bool) : MatchQueue × Option (ℕ × ℕ) :=
  if queue.length < 2 then (queue, none)
  else
    match queue.find? (fun ws => ws ≠ newPlayerWs) with
    | none => (queue, none)
    | some otherWs =>
      let queue1 := (queue.filter (fun ws => ws ≠ newPlayerWs)).filter
        (fun ws => ws ≠ otherWs)
      if roomCreationOk then
        if joinRoomOk then (queue1, some (otherWs, newPlayerWs))
        else (queue1, none)
      else (queue1 ++ [newPlayerWs] ++ [otherWs], none)

/-- RoomManager.joinMatchmaking: a socket already queued is left untouched;
otherwise it is enqueued and a match is attempted immediately. -/
def joinMatchmaking (queue : MatchQueue) (ws : ℕ)
    (roomCreationOk joinRoomOk : Bool) : MatchQueue × Option (ℕ × ℕ) :=
  if queue.contains ws then (queue, none)
  else tryMatchPlayers (queue ++ [ws]) ws roomCreationOk joinRoomOk

end RoomManager

/-! A concrete computable JsMath model, used to evaluate the embedding on
closed inputs: its cosine is constantly 1 and its sine constantly 0 (a valid
angle model), and its square root is exact on squares of rationals. -/

/-- Exact rational square root: returns the exact square root when the
argument is the square of a rational, and 0 otherwise. -/
def ratSqrt (x : ℚ) : ℚ :=
  if 0 ≤ x.num ∧ Nat.sqrt x.num.toNat * Nat.sqrt x.num.toNat = x.num.toNat ∧
      Nat.sqrt x.den * Nat.sqrt x.den = x.den then
    (Nat.sqrt x.num.toNat : ℚ) / (Nat.sqrt x.den : ℚ)
  else 0

/-- ratSqrt is nonnegative. -/
theorem ratSqrt_nonneg (x : ℚ) : 0 ≤ ratSqrt x := by
  rw [ratSqrt]
  split
  · positivity
  · exact le_refl 0

/-- ratSqrt is exact on squares. -/
theorem ratSqrt_mul_self (q : ℚ) : ratSqrt (q * q) = |q| := by
  have hnum : (q * q).num = q.num * q.num := Rat.mul_self_num q
  have hden : (q * q).den = q.den * q.den := Rat.mul_self_den q
  have habs : ((q.num.natAbs * q.num.natAbs : ℕ) : ℤ) = q.num * q.num :=
    Int.natAbs_mul_self
  have htoNat : (q * q).num.toNat = q.num.natAbs * q.num.natAbs := by
    rw [hnum, ← habs]
    exact Int.toNat_natCast _
  have hsn : Nat.sqrt ((q * q).num.toNat) = q.num.natAbs := by
    rw [htoNat]
    exact Nat.sqrt_eq q.num.natAbs
  have hsd : Nat.sqrt ((q * q).den) = q.den := by
    rw [hden]
    exact Nat.sqrt_eq q.den
  have hcond : 0 ≤ (q * q).num ∧
      Nat.sqrt ((q * q).num.toNat) * Nat.sqrt ((q * q).num.toNat) = (q * q).num.toNat ∧
      Nat.sqrt ((q * q).den) * Nat.sqrt ((q * q).den) = (q * q).den := by
    refine ⟨?_, ?_, ?_⟩
    · rw [hnum]; exact mul_self_nonneg q.num
    · rw [hsn, htoNat]
    · rw [hsd, hden]
  rw [ratSqrt, if_pos hcond, hsn, hsd]
  have h1 : ((q.num.natAbs : ℚ)) = |(q.num : ℚ)| := by
    rw [Int.cast_natAbs, Int.cast_abs]
  have hdpos : (0 : ℚ) < (q.den : ℚ) := by
    exact_mod_cast q.pos
  calc (q.num.natAbs : ℚ) / (q.den : ℚ)
      = |(q.num : ℚ)| / |(q.den : ℚ)| := by rw [h1, abs_of_pos hdpos]
    _ = |(q.num : ℚ) / (q.den : ℚ)| := (abs_div _ _).symm
    _ = |q| := by rw [Rat.num_div_den]

/-- The concrete JsMath model used for closed evaluations. -/
def unitJsMath : JsMath where
  cos := fun _ => 1
  sin := fun _ => 0
  sqrt := ratSqrt
  cos_sq_add_sin_sq := fun _ => by norm_num
  sqrt_mul_self := ratSqrt_mul_self
  sqrt_nonneg := ratSqrt_nonneg

/-! Concrete fixtures used to evaluate the embedding on closed inputs. -/

/-- A tier-3 car at a given position with given health and shield. -/
def testCar (carId : String) (x y health shield : ℚ) : CarState :=
  { id := carId, x := x, y := y, angle := 0, velocityX := 0, velocityY := 0,
    health := health, maxHealth := 100, shield := shield, maxShield := 50,
    shieldRechargeTimer := 0, score := 0, isBoosting := false, boostFuel := 100,
    maxBoostFuel := 100, boostRechargeTimer := 0, maxSpeed := 8, boostSpeed := 12,
    acceleration := 3 / 10, turnSpeed := 6 / 100, bulletDamageMultiplier := 1,
    gunEffectId := "classic" }

/-- A motionless cannon bullet at a given position with given damage. -/
def testBullet (bulletId ownerId : String) (x y damage : ℚ) : Bullet :=
  { id := bulletId, ownerId := ownerId, x := x, y := y, velocityX := 0,
    velocityY := 0, angle := 0, damage := damage,
    weaponType := WeaponType.cannon, size := 10, gunEffectId := "classic" }

def shooterCar : CarState := testCar "p1" 100 400 100 0

def victimCar : CarState := testCar "p2" 600 400 10 0

def hitBullet : Bullet := testBullet "b1" "p1" 600 400 15

def c1State : GameState :=
  ⟨[shooterCar, victimCar], [hitBullet], [], [], GameStatus.playing, none⟩

def metalWall : Wall :=
  ⟨"w1", 600, 400, 100, 20, "#374151", WallMaterial.metal, 300, 300⟩

def woodWall : Wall :=
  ⟨"w2", 600, 400, 100, 20, "#92400e", WallMaterial.wood, 30, 80⟩

def cannonBullet35 : Bullet := testBullet "b2" "p1" 600 400 35

def c2HitState : GameState :=
  ⟨[], [cannonBullet35], [metalWall], [], GameStatus.playing, none⟩

def c2DestroyState : GameState :=
  ⟨[], [cannonBullet35], [woodWall], [], GameStatus.playing, none⟩

/-! String facts used to evaluate the fixtures. -/

theorem strEq_p2_p1 : (("p2" : String) = "p1") = False := by decide

theorem strEq_p1_p2 : (("p1" : String) = "p2") = False := by decide

theorem strContains_b1 : (["b1"] : List String).contains "b1" = true := by decide

/-! Claim C1. -/

/-- The target-mutation part of CombatSystem.applyDamage written as a single
record update. -/
theorem applyDamageToTarget_eq (b : Bullet) (t : CarState) :
    CombatSystem.applyDamageToTarget b t =
      { t with
        shield := if t.shield > 0 then t.shield - min t.shield b.damage else t.shield,
        health :=
          if (if t.shield > 0 then b.damage - min t.shield b.damage else b.damage) > 0
          then t.health - (if t.shield > 0 then b.damage - min t.shield b.damage else b.damage)
          else t.health,
        shieldRechargeTimer := SHIELD_RECHARGE_DELAY } := by
  simp only [CombatSystem.applyDamageToTarget]
  split_ifs <;> rfl

/-- Claim C1 counterexample: in the embedded tick damage path, a player at 10
health and 0 shield hit by a 15-damage projectile ends the tick at health -5,
not 0, so health does not remain within the range from 0 to max. -/
theorem c1_counterexample :
    ((CombatSystem.updateBullets c1State).1.players.map (fun p => p.health) = [100, -5]) ∧
    ((-5 : ℚ) ≠ 0 ∧ ¬ (0 ≤ (-5 : ℚ))) := by
  constructor
  · norm_num [CombatSystem.updateBullets, CombatSystem.updateBulletsLoop,
      CombatSystem.processBullet, CombatSystem.advanceBullet, CombatSystem.bulletWallsLoop,
      CombatSystem.bulletPlayersLoop, CombatSystem.applyDamage,
      CombatSystem.applyDamageToTarget, CollisionSystem.isBulletOutOfBounds,
      CollisionSystem.checkBulletCarCollision, c1State, hitBullet, shooterCar,
      victimCar, testCar, testBullet, GAME_WIDTH, GAME_HEIGHT, CAR_WIDTH,
      CAR_HEIGHT, SHIELD_RECHARGE_DELAY, SCORE_PER_HIT, SCORE_PER_KILL,
      strEq_p2_p1, strEq_p1_p2, strContains_b1, decide_eq_true_eq]
  · norm_num

/-- Claim C1 (amended): projectile damage keeps the target's shield within
the range from 0 to its maximum and never increases health, and car-car
collision damage never increases health and leaves shields unchanged, but
health is not clamped below 0: a player at 10 health and 0 shield hit by a
projectile dealing 15 damage ends with health exactly -5. -/
theorem c1_damage_bounds (b : Bullet) (t : CarState) (M : JsMath)
    (c1 c2 : CarState) (hdmg : 0 ≤ b.damage) (hs0 : 0 ≤ t.shield)
    (hsmax : t.shield ≤ t.maxShield) :
    (0 ≤ (CombatSystem.applyDamageToTarget b t).shield ∧
     (CombatSystem.applyDamageToTarget b t).shield ≤ t.maxShield ∧
     (CombatSystem.applyDamageToTarget b t).health ≤ t.health) ∧
    ((CollisionSystem.checkCarCollision M c1 c2).1.health ≤ c1.health ∧
     (CollisionSystem.checkCarCollision M c1 c2).2.1.health ≤ c2.health ∧
     (CollisionSystem.checkCarCollision M c1 c2).1.shield = c1.shield ∧
     (CollisionSystem.checkCarCollision M c1 c2).2.1.shield = c2.shield) ∧
    (t.health = 10 → t.shield = 0 → b.damage = 15 →
      (CombatSystem.applyDamageToTarget b t).health = -5) := by
  refine ⟨?_, ?_, ?_⟩
  · rw [applyDamageToTarget_eq]
    dsimp only
    split_ifs with h1 h2 h2
    · have hmin : min t.shield b.damage ≤ t.shield := min_le_left _ _
      have hmin0 : 0 ≤ min t.shield b.damage := le_min (le_of_lt h1) hdmg
      refine ⟨by linarith, by linarith, by linarith⟩
    · have hmin : min t.shield b.damage ≤ t.shield := min_le_left _ _
      have hmin0 : 0 ≤ min t.shield b.damage := le_min (le_of_lt h1) hdmg
      refine ⟨by linarith, by linarith, le_refl _⟩
    · refine ⟨hs0, hsmax, by linarith⟩
    · refine ⟨hs0, hsmax, le_refl _⟩
  · simp only [CollisionSystem.checkCarCollision, CollisionSystem.applyBounce,
      PhysicsSystem.getRelativeSpeed]
    split_ifs with h1 h2
    · exact ⟨le_refl _, le_refl _, rfl, rfl⟩
    · have hfl : 0 ≤ jsFloor (M.sqrt (((c1.velocityX - c2.velocityX) *
          (c1.velocityX - c2.velocityX) + (c1.velocityY - c2.velocityY) *
          (c1.velocityY - c2.velocityY))) * COLLISION_DAMAGE_MULTIPLIER) := by
        have hs : 0 ≤ M.sqrt ((c1.velocityX - c2.velocityX) *
            (c1.velocityX - c2.velocityX) + (c1.velocityY - c2.velocityY) *
            (c1.velocityY - c2.velocityY)) := M.sqrt_nonneg _
        have hsm : 0 ≤ M.sqrt ((c1.velocityX - c2.velocityX) *
            (c1.velocityX - c2.velocityX) + (c1.velocityY - c2.velocityY) *
            (c1.velocityY - c2.velocityY)) * COLLISION_DAMAGE_MULTIPLIER := by
          have hm : (0 : ℚ) ≤ COLLISION_DAMAGE_MULTIPLIER := by
            norm_num [COLLISION_DAMAGE_MULTIPLIER]
          exact mul_nonneg hs hm
        simp only [jsFloor]
        exact_mod_cast Int.floor_nonneg.mpr hsm
      refine ⟨by dsimp only; linarith, by dsimp only; linarith, rfl, rfl⟩
    · exact ⟨le_refl _, le_refl _, rfl, rfl⟩
  · intro hh hs hd
    rw [applyDamageToTarget_eq]
    dsimp only
    rw [hh, hs, hd]
    norm_num

/-- Claim C1 witness: the amended theorem evaluated on the concrete scenario
car and bullet. -/
theorem c1_witness :
    (0 ≤ hitBullet.damage ∧ 0 ≤ victimCar.shield ∧
      victimCar.shield ≤ victimCar.maxShield) ∧
    (CombatSystem.applyDamageToTarget hitBullet victimCar).health = -5 := by
  have h1 : (0 : ℚ) ≤ hitBullet.damage := by norm_num [hitBullet, testBullet]
  have h2 : (0 : ℚ) ≤ victimCar.shield := by norm_num [victimCar, testCar]
  have h3 : victimCar.shield ≤ victimCar.maxShield := by norm_num [victimCar, testCar]
  refine ⟨⟨h1, h2, h3⟩, ?_⟩
  exact (c1_damage_bounds hitBullet victimCar unitJsMath shooterCar victimCar
    h1 h2 h3).2.2 (by norm_num [victimCar, testCar]) (by norm_num [victimCar, testCar])
    (by norm_num [hitBullet, testBullet])

/-! Claim C2. -/

/-- Claim C2 counterexample: a projectile with damage 35 hitting a wall of a
material with 0.5 damage resistance and 300 health does not leave the wall at
health 265: the resistance-reduced damage is floor of 17.5, so the wall ends
at 283. -/
theorem c2_counterexample :
    ¬ ((CombatSystem.applyWallDamage cannonBullet35 metalWall).1.health = 265) := by
  norm_num [CombatSystem.applyWallDamage, cannonBullet35, metalWall, testBullet,
    WALL_MATERIALS, jsFloor]

/-- Claim C2 (amended): a projectile hit decreases the wall's health by the
floor of its damage scaled by one minus the material's damage resistance, the
wall counts as destroyed exactly when the updated health is at most 0, a
destroyed wall is marked for removal in the same bullet pass and removed from
the active set that tick, and in the scenario the 35-damage projectile on the
0.5-resistance 300-health wall leaves health 283 (not destroyed, wall kept). -/
theorem c2_wall_damage (b : Bullet) (w : Wall) (acc : CombatSystem.BulletPassState)
    (b0 : Bullet) (r : List Wall × CombatSystem.WallDamageResult) :
    ((CombatSystem.applyWallDamage b w).1.health =
      w.health - jsFloor (b.damage * (1 - (WALL_MATERIALS w.material).damageResistance))) ∧
    ((CombatSystem.applyWallDamage b w).2.destroyed = true ↔
      (CombatSystem.applyWallDamage b w).1.health ≤ 0) ∧
    (b.damage = 35 → w.material = WallMaterial.metal → w.health = 300 →
      (CombatSystem.applyWallDamage b w).1.health = 283 ∧
      (CombatSystem.applyWallDamage b w).2.destroyed = false) ∧
    (CollisionSystem.isBulletOutOfBounds (CombatSystem.advanceBullet b0)
        GAME_WIDTH GAME_HEIGHT = false →
      CombatSystem.bulletWallsLoop (CombatSystem.advanceBullet b0)
        acc.wallsToRemove acc.walls = some r →
      (CombatSystem.processBullet acc b0).1.wallsToRemove =
        (if r.2.destroyed then acc.wallsToRemove ++ [r.2.wallId]
         else acc.wallsToRemove)) ∧
    ((CombatSystem.updateBullets c2HitState).1.walls.map (fun wl => wl.health) = [283]) ∧
    ((CombatSystem.updateBullets c2DestroyState).1.walls = []) := by
  refine ⟨?_, ?_, ?_, ?_, ?_, ?_⟩
  · simp only [CombatSystem.applyWallDamage]
  · simp only [CombatSystem.applyWallDamage]
    simp [decide_eq_true_eq]
  · intro hd hm hh
    simp only [CombatSystem.applyWallDamage, hd, hm, hh, WALL_MATERIALS]
    norm_num [jsFloor]
  · intro hoob hloop
    simp only [CombatSystem.processBullet, hoob, hloop]
    simp
  · norm_num [CombatSystem.updateBullets, CombatSystem.updateBulletsLoop,
      CombatSystem.processBullet, CombatSystem.advanceBullet, CombatSystem.bulletWallsLoop,
      CombatSystem.applyWallDamage, CollisionSystem.isBulletOutOfBounds,
      CollisionSystem.checkBulletWallCollision, rectangleIntersectsWall,
      c2HitState, cannonBullet35, metalWall, testBullet, WALL_MATERIALS,
      GAME_WIDTH, GAME_HEIGHT, BULLET_SIZE, jsFloor, decide_eq_true_eq]
  · norm_num [CombatSystem.updateBullets, CombatSystem.updateBulletsLoop,
      CombatSystem.processBullet, CombatSystem.advanceBullet, CombatSystem.bulletWallsLoop,
      CombatSystem.applyWallDamage, CollisionSystem.isBulletOutOfBounds,
      CollisionSystem.checkBulletWallCollision, rectangleIntersectsWall,
      c2DestroyState, cannonBullet35, woodWall, testBullet, WALL_MATERIALS,
      GAME_WIDTH, GAME_HEIGHT, BULLET_SIZE, jsFloor, decide_eq_true_eq]

/-- Claim C2 witness: the amended theorem evaluated on the concrete
35-damage bullet and the metal wall. -/
theorem c2_witness :
    (cannonBullet35.damage = 35 ∧ metalWall.material = WallMaterial.metal ∧
      metalWall.health = 300) ∧
    (CombatSystem.applyWallDamage cannonBullet35 metalWall).1.health = 283 := by
  have h1 : cannonBullet35.damage = 35 := by norm_num [cannonBullet35, testBullet]
  have h2 : metalWall.material = WallMaterial.metal := rfl
  have h3 : metalWall.health = 300 := rfl
  refine ⟨⟨h1, h2, h3⟩, ?_⟩
  exact ((c2_wall_damage cannonBullet35 metalWall ⟨[], [], [], [], []⟩ cannonBullet35
    ([], ⟨"w1", 0, false⟩)).2.2.1 h1 h2 h3).1

/-! Claim C3. -/

def overlapCar : CarState := testCar "p3" 600 400 100 0

def c3Bullet : Bullet := testBullet "b3" "p9" 600 400 10

def c3Acc : CombatSystem.BulletPassState := ⟨[overlapCar], [metalWall], [], [], []⟩

def c3WallRes : List Wall × CombatSystem.WallDamageResult :=
  ([⟨"w1", 600, 400, 100, 20, "#374151", WallMaterial.metal, 295, 300⟩],
    ⟨"w1", 5, false⟩)

/-- Claim C3: in each tick's bullet pass, each projectile is removed for at
most one cause, tested in the priority order out-of-bounds, then walls in
array order, then entities; the first cause found ends evaluation, so a
projectile overlapping both a wall and an entity damages only the wall and
leaves every player untouched. -/
theorem c3_single_destruction_cause (acc : CombatSystem.BulletPassState)
    (b0 : Bullet) :
    (CollisionSystem.isBulletOutOfBounds (CombatSystem.advanceBullet b0)
        GAME_WIDTH GAME_HEIGHT = true →
      CombatSystem.processBullet acc b0 =
        ({ acc with bulletsToRemove :=
            acc.bulletsToRemove ++ [(CombatSystem.advanceBullet b0).id] },
          CombatSystem.advanceBullet b0)) ∧
    (∀ r, CollisionSystem.isBulletOutOfBounds (CombatSystem.advanceBullet b0)
        GAME_WIDTH GAME_HEIGHT = false →
      CombatSystem.bulletWallsLoop (CombatSystem.advanceBullet b0)
        acc.wallsToRemove acc.walls = some r →
      ((CombatSystem.processBullet acc b0).1.players = acc.players ∧
       (CombatSystem.processBullet acc b0).1.wallDamageResults =
         acc.wallDamageResults ++ [r.2] ∧
       (CombatSystem.processBullet acc b0).1.bulletsToRemove =
         acc.bulletsToRemove ++ [(CombatSystem.advanceBullet b0).id])) ∧
    (∀ t, CollisionSystem.isBulletOutOfBounds (CombatSystem.advanceBullet b0)
        GAME_WIDTH GAME_HEIGHT = false →
      CombatSystem.bulletWallsLoop (CombatSystem.advanceBullet b0)
        acc.wallsToRemove acc.walls = none →
      CombatSystem.bulletPlayersLoop (CombatSystem.advanceBullet b0)
        acc.players = some t →
      ((CombatSystem.processBullet acc b0).1.walls = acc.walls ∧
       (CombatSystem.processBullet acc b0).1.wallDamageResults =
         acc.wallDamageResults ∧
       (CombatSystem.processBullet acc b0).1.wallsToRemove = acc.wallsToRemove ∧
       (CombatSystem.processBullet acc b0).1.bulletsToRemove =
         acc.bulletsToRemove ++ [(CombatSystem.advanceBullet b0).id])) ∧
    (CollisionSystem.isBulletOutOfBounds (CombatSystem.advanceBullet b0)
        GAME_WIDTH GAME_HEIGHT = false →
      CombatSystem.bulletWallsLoop (CombatSystem.advanceBullet b0)
        acc.wallsToRemove acc.walls = none →
      CombatSystem.bulletPlayersLoop (CombatSystem.advanceBullet b0)
        acc.players = none →
      CombatSystem.processBullet acc b0 = (acc, CombatSystem.advanceBullet b0)) ∧
    ((CombatSystem.processBullet acc b0).1.bulletsToRemove = acc.bulletsToRemove ∨
     (CombatSystem.processBullet acc b0).1.bulletsToRemove =
       acc.bulletsToRemove ++ [(CombatSystem.advanceBullet b0).id]) := by
  refine ⟨?_, ?_, ?_, ?_, ?_⟩
  · intro h
    simp only [CombatSystem.processBullet, h]
    simp
  · intro r h hl
    simp only [CombatSystem.processBullet, h, hl]
    simp
  · intro t h hl hp
    simp only [CombatSystem.processBullet, h, hl, hp]
    simp
  · intro h hl hp
    simp only [CombatSystem.processBullet, h, hl, hp]
    simp
  · by_cases h : CollisionSystem.isBulletOutOfBounds (CombatSystem.advanceBullet b0)
        GAME_WIDTH GAME_HEIGHT = true
    · right
      simp only [CombatSystem.processBullet, h]
      simp
    · have hfalse : CollisionSystem.isBulletOutOfBounds (CombatSystem.advanceBullet b0)
          GAME_WIDTH GAME_HEIGHT = false := by
        cases hb : CollisionSystem.isBulletOutOfBounds (CombatSystem.advanceBullet b0)
            GAME_WIDTH GAME_HEIGHT
        · rfl
        · exact absurd hb h
      cases hl : CombatSystem.bulletWallsLoop (CombatSystem.advanceBullet b0)
          acc.wallsToRemove acc.walls with
      | some r =>
        right
        simp only [CombatSystem.processBullet, hfalse, hl]
        simp
      | none =>
        cases hp : CombatSystem.bulletPlayersLoop (CombatSystem.advanceBullet b0)
            acc.players with
        | some t =>
          right
          simp only [CombatSystem.processBullet, hfalse, hl, hp]
          simp
        | none =>
          left
          simp only [CombatSystem.processBullet, hfalse, hl, hp]
          simp

/-- Claim C3 witness: a concrete projectile overlapping both a live wall and
a living enemy player is consumed by the wall only, leaving the players
untouched: the theorem's wall-hit case evaluated on that input. -/
theorem c3_witness :
    (CollisionSystem.isBulletOutOfBounds (CombatSystem.advanceBullet c3Bullet)
        GAME_WIDTH GAME_HEIGHT = false) ∧
    (CombatSystem.bulletWallsLoop (CombatSystem.advanceBullet c3Bullet)
        c3Acc.wallsToRemove c3Acc.walls = some c3WallRes) ∧
    (CollisionSystem.checkBulletCarCollision (CombatSystem.advanceBullet c3Bullet)
        overlapCar = true) ∧
    ((CombatSystem.processBullet c3Acc c3Bullet).1.players = c3Acc.players) ∧
    ((CombatSystem.processBullet c3Acc c3Bullet).1.wallDamageResults =
      [c3WallRes.2]) := by
  have hoob : CollisionSystem.isBulletOutOfBounds (CombatSystem.advanceBullet c3Bullet)
      GAME_WIDTH GAME_HEIGHT = false := by
    norm_num [CollisionSystem.isBulletOutOfBounds, CombatSystem.advanceBullet,
      c3Bullet, testBullet, GAME_WIDTH, GAME_HEIGHT]
  have hwall : CombatSystem.bulletWallsLoop (CombatSystem.advanceBullet c3Bullet)
      c3Acc.wallsToRemove c3Acc.walls = some c3WallRes := by
    norm_num [CombatSystem.bulletWallsLoop, CombatSystem.advanceBullet,
      CombatSystem.applyWallDamage, CollisionSystem.checkBulletWallCollision,
      rectangleIntersectsWall, c3Bullet, c3Acc, c3WallRes, metalWall, testBullet,
      WALL_MATERIALS, BULLET_SIZE, jsFloor, decide_eq_true_eq]
  have hcar : CollisionSystem.checkBulletCarCollision (CombatSystem.advanceBullet c3Bullet)
      overlapCar = true := by
    norm_num [CollisionSystem.checkBulletCarCollision, CombatSystem.advanceBullet,
      c3Bullet, overlapCar, testCar, testBullet, CAR_WIDTH, CAR_HEIGHT,
      decide_eq_true_eq]
  have hmain := (c3_single_destruction_cause c3Acc c3Bullet).2.1 c3WallRes hoob hwall
  refine ⟨hoob, hwall, hcar, hmain.1, ?_⟩
  have h2 := hmain.2.1
  simpa [c3Acc] using h2

/-! Claim C4. -/

/-- Reading a cooldown map right after recording a timestamp for the same
entity returns that timestamp. -/
theorem cooldownGet_set (m : List (String × ℚ)) (carId : String) (t : ℚ) :
    CombatSystem.cooldownGet (CombatSystem.cooldownSet m carId t) carId = t := by
  induction m with
  | nil =>
    simp [CombatSystem.cooldownSet, CombatSystem.cooldownGet, List.find?]
  | cons e m ih =>
    by_cases he : e.fst = carId
    · simp [CombatSystem.cooldownSet, CombatSystem.cooldownGet, List.find?,
        List.any_cons, he]
    · by_cases hany : m.any (fun x => x.fst = carId) = true
      · have h1 : CombatSystem.cooldownSet (e :: m) carId t =
            e :: CombatSystem.cooldownSet m carId t := by
          simp [CombatSystem.cooldownSet, List.any_cons, he, hany]
        rw [h1]
        simp only [CombatSystem.cooldownGet, List.find?]
        rw [show (decide (e.fst = carId)) = false by simp [he]]
        exact ih
      · have hanyf : m.any (fun x => x.fst = carId) = false := by
          cases hx : m.any (fun x => x.fst = carId)
          · rfl
          · exact absurd hx hany
        have h1 : CombatSystem.cooldownSet (e :: m) carId t =
            e :: (m ++ [(carId, t)]) := by
          simp [CombatSystem.cooldownSet, List.any_cons, he, hanyf]
        have h2 : CombatSystem.cooldownSet m carId t = m ++ [(carId, t)] := by
          simp [CombatSystem.cooldownSet, hanyf]
        rw [h1]
        simp only [CombatSystem.cooldownGet, List.find?]
        rw [show (decide (e.fst = carId)) = false by simp [he]]
        rw [← h2]
        exact ih

/-- Every fire attempt leaves the bullet list unchanged or appends exactly
the one new bullet. -/
theorem tryShoot_bullets_shape (M : JsMath) (now : ℚ) (car : CarState)
    (bullets : List Bullet) (walls : List Wall) (wt : WeaponType)
    (m : List (String × ℚ)) (i : String) :
    (CombatSystem.tryShootWeapon M now car bullets walls wt m i).bullets = bullets ∨
    (CombatSystem.tryShootWeapon M now car bullets walls wt m i).bullets =
      bullets ++ [CombatSystem.createBullet M car wt i] := by
  simp only [CombatSystem.tryShootWeapon]
  split_ifs
  · exact Or.inl rfl
  · exact Or.inl rfl
  · exact Or.inr rfl

/-- Claim C4: a fire request is rejected exactly when the cooldown has not
elapsed or the forward-offset spawn point overlaps some wall; a rejected
request changes neither the bullet list nor the recorded last-fire timestamp,
an accepted one appends exactly one bullet and records the time, and a second
request on the same weapon within the cooldown window of an accepted first
request is rejected, so the two requests append exactly one projectile
(and never more than one in any case). -/
theorem c4_fire_request (M : JsMath) (now t2 : ℚ) (car : CarState)
    (bullets : List Bullet) (walls walls2 : List Wall) (wt : WeaponType)
    (cooldownMap : List (String × ℚ)) (id1 id2 : String) :
    ((CombatSystem.tryShootWeapon M now car bullets walls wt cooldownMap id1).fired = false ↔
      (now - CombatSystem.cooldownGet cooldownMap car.id <
          (CombatSystem.WEAPON_CONFIGS wt).cooldown ∨
        walls.any (fun wall => rectangleIntersectsWall
          (Vector.add ⟨car.x, car.y⟩ (Vector.fromAngle M car.angle (CAR_WIDTH / 2 + 10))).x
          (Vector.add ⟨car.x, car.y⟩ (Vector.fromAngle M car.angle (CAR_WIDTH / 2 + 10))).y
          (CombatSystem.WEAPON_CONFIGS wt).size (CombatSystem.WEAPON_CONFIGS wt).size
          wall) = true)) ∧
    ((CombatSystem.tryShootWeapon M now car bullets walls wt cooldownMap id1).fired = false →
      (CombatSystem.tryShootWeapon M now car bullets walls wt cooldownMap id1).bullets =
        bullets ∧
      (CombatSystem.tryShootWeapon M now car bullets walls wt cooldownMap id1).lastShootTimes =
        cooldownMap) ∧
    ((CombatSystem.tryShootWeapon M now car bullets walls wt cooldownMap id1).fired = true →
      (CombatSystem.tryShootWeapon M now car bullets walls wt cooldownMap id1).bullets =
        bullets ++ [CombatSystem.createBullet M car wt id1] ∧
      (CombatSystem.tryShootWeapon M now car bullets walls wt cooldownMap id1).lastShootTimes =
        CombatSystem.cooldownSet cooldownMap car.id now) ∧
    ((CombatSystem.tryShootWeapon M now car bullets walls wt cooldownMap id1).fired = true →
      t2 - now < (CombatSystem.WEAPON_CONFIGS wt).cooldown →
      ((CombatSystem.tryShootWeapon M t2 car
          (CombatSystem.tryShootWeapon M now car bullets walls wt cooldownMap id1).bullets
          walls2 wt
          (CombatSystem.tryShootWeapon M now car bullets walls wt cooldownMap id1).lastShootTimes
          id2).fired = false ∧
        (CombatSystem.tryShootWeapon M t2 car
          (CombatSystem.tryShootWeapon M now car bullets walls wt cooldownMap id1).bullets
          walls2 wt
          (CombatSystem.tryShootWeapon M now car bullets walls wt cooldownMap id1).lastShootTimes
          id2).bullets = bullets ++ [CombatSystem.createBullet M car wt id1])) ∧
    (t2 - now < (CombatSystem.WEAPON_CONFIGS wt).cooldown →
      (CombatSystem.tryShootWeapon M t2 car
        (CombatSystem.tryShootWeapon M now car bullets walls wt cooldownMap id1).bullets
        walls2 wt
        (CombatSystem.tryShootWeapon M now car bullets walls wt cooldownMap id1).lastShootTimes
        id2).bullets.length ≤ bullets.length + 1) := by
  have hreject :
      (CombatSystem.tryShootWeapon M now car bullets walls wt cooldownMap id1).fired = false ↔
      (now - CombatSystem.cooldownGet cooldownMap car.id <
          (CombatSystem.WEAPON_CONFIGS wt).cooldown ∨
        walls.any (fun wall => rectangleIntersectsWall
          (Vector.add ⟨car.x, car.y⟩ (Vector.fromAngle M car.angle (CAR_WIDTH / 2 + 10))).x
          (Vector.add ⟨car.x, car.y⟩ (Vector.fromAngle M car.angle (CAR_WIDTH / 2 + 10))).y
          (CombatSystem.WEAPON_CONFIGS wt).size (CombatSystem.WEAPON_CONFIGS wt).size
          wall) = true) := by
    simp only [CombatSystem.tryShootWeapon]
    split_ifs with h1 h2
    · exact iff_of_true rfl (Or.inl h1)
    · exact iff_of_true rfl (Or.inr h2)
    · exact iff_of_false (by simp) (not_or.mpr ⟨h1, h2⟩)
  have hnoop :
      (CombatSystem.tryShootWeapon M now car bullets walls wt cooldownMap id1).fired = false →
      (CombatSystem.tryShootWeapon M now car bullets walls wt cooldownMap id1).bullets =
        bullets ∧
      (CombatSystem.tryShootWeapon M now car bullets walls wt cooldownMap id1).lastShootTimes =
        cooldownMap := by
    simp only [CombatSystem.tryShootWeapon]
    split_ifs
    · exact fun _ => ⟨rfl, rfl⟩
    · exact fun _ => ⟨rfl, rfl⟩
    · intro h
      exact absurd h (by simp)
  have haccept :
      (CombatSystem.tryShootWeapon M now car bullets walls wt cooldownMap id1).fired = true →
      (CombatSystem.tryShootWeapon M now car bullets walls wt cooldownMap id1).bullets =
        bullets ++ [CombatSystem.createBullet M car wt id1] ∧
      (CombatSystem.tryShootWeapon M now car bullets walls wt cooldownMap id1).lastShootTimes =
        CombatSystem.cooldownSet cooldownMap car.id now := by
    simp only [CombatSystem.tryShootWeapon]
    split_ifs
    · intro h
      exact absurd h (by simp)
    · intro h
      exact absurd h (by simp)
    · exact fun _ => ⟨rfl, rfl⟩
  have hsecond :
      (CombatSystem.tryShootWeapon M now car bullets walls wt cooldownMap id1).fired = true →
      t2 - now < (CombatSystem.WEAPON_CONFIGS wt).cooldown →
      ((CombatSystem.tryShootWeapon M t2 car
          (CombatSystem.tryShootWeapon M now car bullets walls wt cooldownMap id1).bullets
          walls2 wt
          (CombatSystem.tryShootWeapon M now car bullets walls wt cooldownMap id1).lastShootTimes
          id2).fired = false ∧
        (CombatSystem.tryShootWeapon M t2 car
          (CombatSystem.tryShootWeapon M now car bullets walls wt cooldownMap id1).bullets
          walls2 wt
          (CombatSystem.tryShootWeapon M now car bullets walls wt cooldownMap id1).lastShootTimes
          id2).bullets = bullets ++ [CombatSystem.createBullet M car wt id1]) := by
    intro hf hw
    have hsh := haccept hf
    rw [hsh.1, hsh.2]
    have hr2 : CombatSystem.tryShootWeapon M t2 car
        (bullets ++ [CombatSystem.createBullet M car wt id1]) walls2 wt
        (CombatSystem.cooldownSet cooldownMap car.id now) id2 =
        ⟨false, bullets ++ [CombatSystem.createBullet M car wt id1],
          CombatSystem.cooldownSet cooldownMap car.id now⟩ := by
      simp only [CombatSystem.tryShootWeapon, cooldownGet_set]
      rw [if_pos hw]
    rw [hr2]
    exact ⟨rfl, rfl⟩
  refine ⟨hreject, hnoop, haccept, hsecond, ?_⟩
  intro hw
  cases hf : (CombatSystem.tryShootWeapon M now car bullets walls wt cooldownMap id1).fired with
  | true =>
    have h := (hsecond hf hw).2
    rw [h]
    simp
  | false =>
    have h1 := (hnoop hf).1
    rw [h1]
    rcases tryShoot_bullets_shape M t2 car bullets walls2 wt
      (CombatSystem.tryShootWeapon M now car bullets walls wt cooldownMap id1).lastShootTimes
      id2 with h2 | h2
    · rw [h2]
      omega
    · rw [h2]
      simp

/-- Claim C4 witness: with an empty cooldown map and no walls, a first cannon
request at time 2000 fires, and a second request 500 ms later (inside the
1200 ms cannon cooldown) is rejected, leaving exactly one appended
projectile. -/
theorem c4_witness :
    ((CombatSystem.tryShootWeapon unitJsMath 2000 shooterCar [] [] WeaponType.cannon
        [] "s1").fired = true ∧ (2500 : ℚ) - 2000 <
        (CombatSystem.WEAPON_CONFIGS WeaponType.cannon).cooldown) ∧
    ((CombatSystem.tryShootWeapon unitJsMath 2500 shooterCar
        (CombatSystem.tryShootWeapon unitJsMath 2000 shooterCar [] [] WeaponType.cannon
          [] "s1").bullets
        [] WeaponType.cannon
        (CombatSystem.tryShootWeapon unitJsMath 2000 shooterCar [] [] WeaponType.cannon
          [] "s1").lastShootTimes
        "s2").fired = false ∧
      (CombatSystem.tryShootWeapon unitJsMath 2500 shooterCar
        (CombatSystem.tryShootWeapon unitJsMath 2000 shooterCar [] [] WeaponType.cannon
          [] "s1").bullets
        [] WeaponType.cannon
        (CombatSystem.tryShootWeapon unitJsMath 2000 shooterCar [] [] WeaponType.cannon
          [] "s1").lastShootTimes
        "s2").bullets.length = 1) := by
  have hfired : (CombatSystem.tryShootWeapon unitJsMath 2000 shooterCar [] []
      WeaponType.cannon [] "s1").fired = true := by
    norm_num [CombatSystem.tryShootWeapon, CombatSystem.cooldownGet,
      CombatSystem.WEAPON_CONFIGS, CANNON_COOLDOWN, List.find?, List.any_nil]
  have hwin : (2500 : ℚ) - 2000 < (CombatSystem.WEAPON_CONFIGS WeaponType.cannon).cooldown := by
    norm_num [CombatSystem.WEAPON_CONFIGS, CANNON_COOLDOWN]
  have h := (c4_fire_request unitJsMath 2000 2500 shooterCar [] [] []
    WeaponType.cannon [] "s1" "s2").2.2.2.1 hfired hwin
  refine ⟨⟨hfired, hwin⟩, h.1, ?_⟩
  rw [h.2]
  simp

/-! Claim C5. -/

def forwardInput : PlayerInput :=
  ⟨true, false, false, false, false, false, false, false, none, false⟩

/-- A square-root characterization: the speed of a velocity vector whose
squared magnitude is a perfect square. -/
theorem sqrt_of_sq (M : JsMath) (vx vy k : ℚ) (h : vx * vx + vy * vy = k * k)
    (hk : 0 ≤ k) : M.sqrt (vx * vx + vy * vy) = k := by
  rw [h, M.sqrt_mul_self, abs_of_nonneg hk]

/-- Claim C5: one physics advance applies rotate, accelerate, friction,
speed clamp, position integration and bounds clamp in that order; from rest
with only forward held the velocity magnitude right after the acceleration
step (before friction) is exactly the acceleration stat, the final velocity
is the accelerated vector scaled by friction, the position moves by exactly
that final velocity, mouse-target rotation never overshoots, and backward
acceleration uses the 0.5 multiplier. -/
theorem c5_physics_order (M : JsMath) (car : CarState) (input ib : PlayerInput)
    (hf : input.forward = true) (hb : input.backward = false)
    (hl : input.left = false) (hr : input.right = false)
    (hm : input.useMouseControl = false) (hboost : input.boost = false)
    (hvx : car.velocityX = 0) (hvy : car.velocityY = 0)
    (hacc : 0 ≤ car.acceleration)
    (hclamp : car.acceleration * CAR_FRICTION ≤ car.maxSpeed)
    (hx1 : CAR_WIDTH / 2 ≤ car.x + M.cos car.angle * car.acceleration * CAR_FRICTION)
    (hx2 : car.x + M.cos car.angle * car.acceleration * CAR_FRICTION ≤
      GAME_WIDTH - CAR_WIDTH / 2)
    (hy1 : CAR_HEIGHT / 2 ≤ car.y + M.sin car.angle * car.acceleration * CAR_FRICTION)
    (hy2 : car.y + M.sin car.angle * car.acceleration * CAR_FRICTION ≤
      GAME_HEIGHT - CAR_HEIGHT / 2) :
    (PhysicsSystem.getSpeed M (PhysicsSystem.applyAcceleration M
        (PhysicsSystem.applyRotation car input) input) = car.acceleration) ∧
    (PhysicsSystem.updateCar M car input =
      { car with
          velocityX := M.cos car.angle * car.acceleration * CAR_FRICTION,
          velocityY := M.sin car.angle * car.acceleration * CAR_FRICTION,
          x := car.x + M.cos car.angle * car.acceleration * CAR_FRICTION,
          y := car.y + M.sin car.angle * car.acceleration * CAR_FRICTION }) ∧
    (∀ t ts : ℚ, ∀ c : CarState,
      |PhysicsSystem.normUp (PhysicsSystem.normDown (t - c.angle))| < ts →
      (PhysicsSystem.rotateTowardsTarget c t ts).angle = t) ∧
    (ib.forward = false → ib.backward = true → ib.left = false → ib.right = false →
      ib.useMouseControl = false →
      (PhysicsSystem.applyAcceleration M (PhysicsSystem.applyRotation car ib) ib).velocityX =
        car.velocityX - M.cos car.angle * car.acceleration * (1 / 2) ∧
      (PhysicsSystem.applyAcceleration M (PhysicsSystem.applyRotation car ib) ib).velocityY =
        car.velocityY - M.sin car.angle * car.acceleration * (1 / 2)) := by
  have hcs := M.cos_sq_add_sin_sq car.angle
  have hrot : PhysicsSystem.applyRotation car input = car := by
    cases ht : input.targetAngle <;>
      simp [PhysicsSystem.applyRotation, hm, ht, hl, hr]
  have haccel : PhysicsSystem.applyAcceleration M car input =
      { car with
          velocityX := M.cos car.angle * car.acceleration,
          velocityY := M.sin car.angle * car.acceleration } := by
    simp [PhysicsSystem.applyAcceleration, hf, hb, hvx, hvy]
  have hfric : PhysicsSystem.applyFriction
      { car with
          velocityX := M.cos car.angle * car.acceleration,
          velocityY := M.sin car.angle * car.acceleration } =
      { car with
          velocityX := M.cos car.angle * car.acceleration * CAR_FRICTION,
          velocityY := M.sin car.angle * car.acceleration * CAR_FRICTION } := by
    simp [PhysicsSystem.applyFriction]
  have hfricnn : (0 : ℚ) ≤ CAR_FRICTION := by norm_num [CAR_FRICTION]
  have hmag2 : M.sqrt (M.cos car.angle * car.acceleration * CAR_FRICTION *
      (M.cos car.angle * car.acceleration * CAR_FRICTION) +
      M.sin car.angle * car.acceleration * CAR_FRICTION *
      (M.sin car.angle * car.acceleration * CAR_FRICTION)) =
      car.acceleration * CAR_FRICTION := by
    apply sqrt_of_sq M _ _ _ _ (mul_nonneg hacc hfricnn)
    linear_combination (car.acceleration * CAR_FRICTION *
      (car.acceleration * CAR_FRICTION)) * hcs
  have hlim : PhysicsSystem.limitSpeed M
      { car with
          velocityX := M.cos car.angle * car.acceleration * CAR_FRICTION,
          velocityY := M.sin car.angle * car.acceleration * CAR_FRICTION } false =
      { car with
          velocityX := M.cos car.angle * car.acceleration * CAR_FRICTION,
          velocityY := M.sin car.angle * car.acceleration * CAR_FRICTION } := by
    simp only [PhysicsSystem.limitSpeed]
    rw [if_neg]
    simp only [Bool.false_eq_true, if_false]
    rw [hmag2]
    exact not_lt.mpr hclamp
  have hpos : PhysicsSystem.updatePosition
      { car with
          velocityX := M.cos car.angle * car.acceleration * CAR_FRICTION,
          velocityY := M.sin car.angle * car.acceleration * CAR_FRICTION } =
      { car with
          velocityX := M.cos car.angle * car.acceleration * CAR_FRICTION,
          velocityY := M.sin car.angle * car.acceleration * CAR_FRICTION,
          x := car.x + M.cos car.angle * car.acceleration * CAR_FRICTION,
          y := car.y + M.sin car.angle * car.acceleration * CAR_FRICTION } := by
    simp [PhysicsSystem.updatePosition]
  have hbounds : PhysicsSystem.constrainToBounds
      { car with
          velocityX := M.cos car.angle * car.acceleration * CAR_FRICTION,
          velocityY := M.sin car.angle * car.acceleration * CAR_FRICTION,
          x := car.x + M.cos car.angle * car.acceleration * CAR_FRICTION,
          y := car.y + M.sin car.angle * car.acceleration * CAR_FRICTION } =
      { car with
          velocityX := M.cos car.angle * car.acceleration * CAR_FRICTION,
          velocityY := M.sin car.angle * car.acceleration * CAR_FRICTION,
          x := car.x + M.cos car.angle * car.acceleration * CAR_FRICTION,
          y := car.y + M.sin car.angle * car.acceleration * CAR_FRICTION } := by
    simp only [PhysicsSystem.constrainToBounds]
    congr 1
    · rw [min_eq_right hx2, max_eq_right hx1]
    · rw [min_eq_right hy2, max_eq_right hy1]
  refine ⟨?_, ?_, ?_, ?_⟩
  · rw [hrot, haccel]
    simp only [PhysicsSystem.getSpeed]
    apply sqrt_of_sq M _ _ _ _ hacc
    linear_combination (car.acceleration * car.acceleration) * hcs
  · simp only [PhysicsSystem.updateCar, hboost]
    rw [hrot, haccel, hfric, hlim, hpos, hbounds]
  · intro t ts c h
    simp only [PhysicsSystem.rotateTowardsTarget]
    rw [if_pos h]
  · intro hbf hbb hbl hbr hbm
    have hrot2 : PhysicsSystem.applyRotation car ib = car := by
      cases ht : ib.targetAngle <;>
        simp [PhysicsSystem.applyRotation, hbm, ht, hbl, hbr]
    rw [hrot2]
    constructor <;> simp [PhysicsSystem.applyAcceleration, hbf, hbb]

/-- Claim C5 witness: the theorem evaluated with the concrete math model on a
car at rest at angle 0 with only forward held: the pre-friction speed equals
the acceleration stat 3/10. -/
theorem c5_witness :
    (forwardInput.forward = true ∧ shooterCar.velocityX = 0 ∧
      shooterCar.velocityY = 0) ∧
    PhysicsSystem.getSpeed unitJsMath
      (PhysicsSystem.applyAcceleration unitJsMath
        (PhysicsSystem.applyRotation shooterCar forwardInput) forwardInput) =
      shooterCar.acceleration := by
  refine ⟨⟨rfl, rfl, rfl⟩, ?_⟩
  have hcos : unitJsMath.cos shooterCar.angle = 1 := rfl
  have hsin : unitJsMath.sin shooterCar.angle = 0 := rfl
  exact (c5_physics_order unitJsMath shooterCar forwardInput forwardInput
    rfl rfl rfl rfl rfl rfl rfl rfl
    (by norm_num [shooterCar, testCar])
    (by norm_num [shooterCar, testCar, CAR_FRICTION])
    (by rw [hcos]; norm_num [shooterCar, testCar, CAR_WIDTH, CAR_FRICTION])
    (by rw [hcos]; norm_num [shooterCar, testCar, CAR_WIDTH, GAME_WIDTH, CAR_FRICTION])
    (by rw [hsin]; norm_num [shooterCar, testCar, CAR_HEIGHT, CAR_FRICTION])
    (by rw [hsin]; norm_num [shooterCar, testCar, CAR_HEIGHT, GAME_HEIGHT, CAR_FRICTION])).1

/-! Claim C6. -/

/-- The living and dead player filters partition the player list. -/
theorem alive_dead_length (l : List CarState) :
    (l.filter (fun p => decide (p.health > 0))).length +
    (l.filter (fun p => decide (p.health ≤ 0))).length = l.length := by
  induction l with
  | nil => rfl
  | cons p l ih =>
    simp only [gt_iff_lt] at ih
    by_cases h : p.health > 0
    · have h2 : ¬ (p.health ≤ 0) := not_le.mpr h
      simp [List.filter_cons, h, h2]
      omega
    · have h2 : p.health ≤ 0 := not_lt.mp h
      simp [List.filter_cons, h, h2]
      omega

def shooterAfter : CarState := { shooterCar with score := 110 }

def victimAfter : CarState :=
  { victimCar with health := -5, shieldRechargeTimer := 3000 }

/-- Claim C6: the win check gives no decision with fewer than two players,
declares the unique living player the winner when exactly one of at least two
players is alive, declares a draw when none is alive, gives no decision
otherwise, and when the engine consults it on a two-player state in which one
player has been brought to nonpositive health, the status becomes gameover
with the living opponent recorded as winner. -/
theorem c6_win_condition (players : List CarState) (a b : CarState)
    (s : GameState) :
    (players.length < 2 →
      GameStateManager.checkWinCondition players = ⟨false, none⟩) ∧
    (2 ≤ players.length →
      players.filter (fun p => decide (p.health > 0)) = [a] →
      GameStateManager.checkWinCondition players = ⟨true, some a.id⟩) ∧
    (2 ≤ players.length →
      players.filter (fun p => decide (p.health > 0)) = [] →
      GameStateManager.checkWinCondition players = ⟨true, some "draw"⟩) ∧
    (2 ≤ players.length →
      2 ≤ (players.filter (fun p => decide (p.health > 0))).length →
      GameStateManager.checkWinCondition players = ⟨false, none⟩) ∧
    (s.players = [a, b] → 0 < a.health → b.health ≤ 0 → a.id ≠ "draw" →
      GameEngine.checkWinCondition s =
        { s with gameStatus := GameStatus.gameover, winner := some a.id }) := by
  have main2 : ∀ (ps : List CarState) (w : CarState), 2 ≤ ps.length →
      ps.filter (fun p => decide (p.health > 0)) = [w] →
      GameStateManager.checkWinCondition ps = ⟨true, some w.id⟩ := by
    intro ps w hlen hf
    have hpart := alive_dead_length ps
    rw [hf] at hpart
    simp only [List.length_singleton] at hpart
    simp only [GameStateManager.checkWinCondition]
    rw [if_neg (not_lt.mpr hlen), hf]
    have hdead : ¬ ((ps.filter (fun p => decide (p.health ≤ 0))).length = 0) := by
      omega
    rw [if_neg hdead]
    simp
  refine ⟨?_, main2 players a, ?_, ?_, ?_⟩
  · intro h
    simp only [GameStateManager.checkWinCondition]
    rw [if_pos h]
  · intro hlen hf
    have hpart := alive_dead_length players
    rw [hf] at hpart
    simp only [List.length_nil] at hpart
    simp only [GameStateManager.checkWinCondition]
    rw [if_neg (not_lt.mpr hlen), hf]
    have hdead : ¬ ((players.filter (fun p => decide (p.health ≤ 0))).length = 0) := by
      omega
    rw [if_neg hdead]
    simp
  · intro hlen halive
    simp only [GameStateManager.checkWinCondition]
    rw [if_neg (not_lt.mpr hlen)]
    by_cases hd : (players.filter (fun p => decide (p.health ≤ 0))).length = 0
    · rw [if_pos hd]
    · rw [if_neg hd, if_neg (by omega), if_neg (by omega)]
  · intro hp ha hb hne
    have hfilter : s.players.filter (fun p => decide (p.health > 0)) = [a] := by
      rw [hp]
      simp only [List.filter_cons, List.filter_nil]
      rw [if_pos (by simpa using ha), if_neg (by simpa using not_lt.mpr hb)]
    have hlen : 2 ≤ s.players.length := by
      rw [hp]
      simp
    have hwc := main2 s.players a hlen hfilter
    simp only [GameEngine.checkWinCondition, hwc]
    simp only [GameEngine.endGame]
    rw [if_neg hne]
    simp

/-- Claim C6 witness: after the embedded bullet pass in which the 15-damage
projectile drops the 10-health player to -5, the engine's win check on that
very state reports the shooter as winner and sets the status to gameover. -/
theorem c6_witness :
    ((CombatSystem.updateBullets c1State).1.players = [shooterAfter, victimAfter] ∧
      0 < shooterAfter.health ∧ victimAfter.health ≤ 0 ∧ shooterAfter.id ≠ "draw") ∧
    GameEngine.checkWinCondition (CombatSystem.updateBullets c1State).1 =
      { (CombatSystem.updateBullets c1State).1 with
          gameStatus := GameStatus.gameover, winner := some shooterAfter.id } := by
  have hplayers : (CombatSystem.updateBullets c1State).1.players =
      [shooterAfter, victimAfter] := by
    norm_num [CombatSystem.updateBullets, CombatSystem.updateBulletsLoop,
      CombatSystem.processBullet, CombatSystem.advanceBullet,
      CombatSystem.bulletWallsLoop, CombatSystem.bulletPlayersLoop,
      CombatSystem.applyDamage, CombatSystem.applyDamageToTarget,
      CollisionSystem.isBulletOutOfBounds, CollisionSystem.checkBulletCarCollision,
      c1State, hitBullet, shooterCar, victimCar, shooterAfter, victimAfter,
      testCar, testBullet, GAME_WIDTH, GAME_HEIGHT, CAR_WIDTH, CAR_HEIGHT,
      SHIELD_RECHARGE_DELAY, SCORE_PER_HIT, SCORE_PER_KILL, strEq_p2_p1,
      strEq_p1_p2, strContains_b1, decide_eq_true_eq]
  have ha : (0 : ℚ) < shooterAfter.health := by
    norm_num [shooterAfter, shooterCar, testCar]
  have hb : victimAfter.health ≤ 0 := by
    norm_num [victimAfter, victimCar, testCar]
  have hne : shooterAfter.id ≠ "draw" := by decide
  refine ⟨⟨hplayers, ha, hb, hne⟩, ?_⟩
  exact (c6_win_condition [] shooterAfter victimAfter
    (CombatSystem.updateBullets c1State).1).2.2.2.2 hplayers ha hb hne

/-! Claim C7. -/

def carA : CarState := { testCar "p4" 600 400 100 0 with velocityX := 4 }

def carB : CarState := { testCar "p5" 630 400 100 0 with velocityX := -4 }

/-- Claim C7: car-car collision is resolved exactly when the center distance
is strictly below the sum of the two half-widths; resolution pushes each car
half the overlap along the separation vector, exchanges the velocities scaled
by the 0.5 bounce factor, and subtracts the same floored speed-scaled damage
from both cars exactly when the relative speed exceeds the threshold. -/
theorem c7_car_collision (M : JsMath) (c1 c2 : CarState) (d rs : ℚ)
    (hd : d = M.sqrt ((c1.x - c2.x) * (c1.x - c2.x) + (c1.y - c2.y) * (c1.y - c2.y)))
    (hrs : rs = PhysicsSystem.getRelativeSpeed M c1 c2) :
    ((CollisionSystem.checkCarCollision M c1 c2).2.2.occurred = true ↔
      d < CAR_WIDTH / 2 + CAR_WIDTH / 2) ∧
    (d ≥ CAR_WIDTH →
      CollisionSystem.checkCarCollision M c1 c2 = (c1, c2, ⟨false, none⟩)) ∧
    (d < CAR_WIDTH →
      ((CollisionSystem.checkCarCollision M c1 c2).1.x =
        c1.x + (c1.x - c2.x) / d * (CAR_WIDTH - d) * (1 / 2) ∧
       (CollisionSystem.checkCarCollision M c1 c2).1.y =
        c1.y + (c1.y - c2.y) / d * (CAR_WIDTH - d) * (1 / 2) ∧
       (CollisionSystem.checkCarCollision M c1 c2).2.1.x =
        c2.x - (c1.x - c2.x) / d * (CAR_WIDTH - d) * (1 / 2) ∧
       (CollisionSystem.checkCarCollision M c1 c2).2.1.y =
        c2.y - (c1.y - c2.y) / d * (CAR_WIDTH - d) * (1 / 2)) ∧
      ((CollisionSystem.checkCarCollision M c1 c2).1.velocityX =
        c2.velocityX * (1 / 2) ∧
       (CollisionSystem.checkCarCollision M c1 c2).1.velocityY =
        c2.velocityY * (1 / 2) ∧
       (CollisionSystem.checkCarCollision M c1 c2).2.1.velocityX =
        c1.velocityX * (1 / 2) ∧
       (CollisionSystem.checkCarCollision M c1 c2).2.1.velocityY =
        c1.velocityY * (1 / 2)) ∧
      (rs > COLLISION_DAMAGE_THRESHOLD →
        (CollisionSystem.checkCarCollision M c1 c2).1.health =
          c1.health - jsFloor (rs * COLLISION_DAMAGE_MULTIPLIER) ∧
        (CollisionSystem.checkCarCollision M c1 c2).2.1.health =
          c2.health - jsFloor (rs * COLLISION_DAMAGE_MULTIPLIER) ∧
        (CollisionSystem.checkCarCollision M c1 c2).2.2.damage =
          some (jsFloor (rs * COLLISION_DAMAGE_MULTIPLIER))) ∧
      (¬ rs > COLLISION_DAMAGE_THRESHOLD →
        (CollisionSystem.checkCarCollision M c1 c2).1.health = c1.health ∧
        (CollisionSystem.checkCarCollision M c1 c2).2.1.health = c2.health ∧
        (CollisionSystem.checkCarCollision M c1 c2).2.2.damage = some 0)) := by
  have hw : CAR_WIDTH / 2 + CAR_WIDTH / 2 = CAR_WIDTH := by norm_num [CAR_WIDTH]
  subst hd
  subst hrs
  rw [hw]
  simp only [CollisionSystem.checkCarCollision, CollisionSystem.applyBounce,
    PhysicsSystem.getRelativeSpeed]
  split_ifs with h1 h2
  · refine ⟨iff_of_false (by simp) (not_lt.mpr h1), fun _ => rfl, ?_⟩
    intro hlt
    exact absurd hlt (not_lt.mpr h1)
  · refine ⟨iff_of_true rfl (not_le.mp h1), fun hge => absurd hge (not_le.mpr (not_le.mp h1)), ?_⟩
    intro _
    refine ⟨⟨rfl, rfl, rfl, rfl⟩, ⟨rfl, rfl, rfl, rfl⟩, fun _ => ⟨rfl, rfl, rfl⟩, fun hn => absurd h2 hn⟩
  · refine ⟨iff_of_true rfl (not_le.mp h1), fun hge => absurd hge (not_le.mpr (not_le.mp h1)), ?_⟩
    intro _
    refine ⟨⟨rfl, rfl, rfl, rfl⟩, ⟨rfl, rfl, rfl, rfl⟩, fun hp => absurd hp h2, fun _ => ⟨rfl, rfl, rfl⟩⟩

/-- Claim C7 witness: two concrete overlapping cars 30 units apart with
opposed velocities collide, and both lose exactly floor of the relative speed
times the damage multiplier. -/
theorem c7_witness :
    ((30 : ℚ) = unitJsMath.sqrt ((carA.x - carB.x) * (carA.x - carB.x) +
        (carA.y - carB.y) * (carA.y - carB.y)) ∧
      (8 : ℚ) = PhysicsSystem.getRelativeSpeed unitJsMath carA carB ∧
      (30 : ℚ) < CAR_WIDTH ∧ (8 : ℚ) > COLLISION_DAMAGE_THRESHOLD) ∧
    ((CollisionSystem.checkCarCollision unitJsMath carA carB).2.2.occurred = true ∧
      (CollisionSystem.checkCarCollision unitJsMath carA carB).1.health =
        carA.health - jsFloor (8 * COLLISION_DAMAGE_MULTIPLIER) ∧
      (CollisionSystem.checkCarCollision unitJsMath carA carB).2.1.health =
        carB.health - jsFloor (8 * COLLISION_DAMAGE_MULTIPLIER)) := by
  have hd : (30 : ℚ) = unitJsMath.sqrt ((carA.x - carB.x) * (carA.x - carB.x) +
      (carA.y - carB.y) * (carA.y - carB.y)) := by
    have h := sqrt_of_sq unitJsMath (carA.x - carB.x) (carA.y - carB.y) 30
      (by norm_num [carA, carB, testCar]) (by norm_num)
    exact h.symm
  have hrs : (8 : ℚ) = PhysicsSystem.getRelativeSpeed unitJsMath carA carB := by
    simp only [PhysicsSystem.getRelativeSpeed]
    have h := sqrt_of_sq unitJsMath (carA.velocityX - carB.velocityX)
      (carA.velocityY - carB.velocityY) 8
      (by norm_num [carA, carB, testCar]) (by norm_num)
    exact h.symm
  have h30 : (30 : ℚ) < CAR_WIDTH := by norm_num [CAR_WIDTH]
  have h8 : (8 : ℚ) > COLLISION_DAMAGE_THRESHOLD := by
    norm_num [COLLISION_DAMAGE_THRESHOLD]
  have hmain := c7_car_collision unitJsMath carA carB 30 8 hd hrs
  have hocc : (CollisionSystem.checkCarCollision unitJsMath carA carB).2.2.occurred =
      true := by
    apply hmain.1.mpr
    norm_num [CAR_WIDTH]
  have hdam := (hmain.2.2 h30).2.2.1 h8
  exact ⟨⟨hd, hrs, h30, h8⟩, hocc, hdam.1, hdam.2.1⟩

/-! Claim C8. -/

/-- A freshly spawned boon carries the current clock as its spawn time. -/
theorem trySpawnBoon_spawnTime (M : JsMath) (candidates : List (ℚ × ℚ))
    (ct : BoonType) (newId : String) (now : ℚ) (walls : List Wall)
    (boons : List Boon) (nb : Boon)
    (h : BoonManager.trySpawnBoon M candidates ct newId now walls boons = some nb) :
    nb.spawnTime = now := by
  simp only [BoonManager.trySpawnBoon] at h
  cases hl : BoonManager.trySpawnLoop M walls boons 20 candidates with
  | none => rw [hl] at h; exact absurd h (by simp)
  | some c =>
    rw [hl] at h
    simp only [Option.some.injEq] at h
    rw [← h]

/-- The pickup loop never lengthens the boon list. -/
theorem pickupLoop_length (M : JsMath) (car : CarState) (l : List Boon) :
    (BoonManager.pickupLoop M car l).1.length ≤ l.length := by
  induction l with
  | nil => simp [BoonManager.pickupLoop]
  | cons boon rest ih =>
    simp only [BoonManager.pickupLoop]
    split_ifs
    · simp
    · simp only [List.length_cons]
      omega

def boonA : Boon := ⟨"ba", 300, 300, BoonType.health, 0, 15000⟩

def boonB : Boon := ⟨"bb", 500, 300, BoonType.shield, 0, 15000⟩

def boonC : Boon := ⟨"bc", 700, 300, BoonType.speed, 0, 15000⟩

def boonState3 : BoonManager.ManagerState :=
  ⟨[boonA, boonB, boonC], 0, BOON_SPAWN_INTERVAL⟩

/-- Claim C8: each power-up update removes expired power-ups first, attempts
a spawn only when the remaining count is strictly below the maximum of 3 and
the spawn interval has elapsed, never lets the count exceed 3, leaves every
surviving power-up either unexpired or freshly spawned at the current clock,
and pickups never increase the count. -/
theorem c8_boon_spawn (M : JsMath) (s : BoonManager.ManagerState) (now : ℚ)
    (walls : List Wall) (candidates : List (ℚ × ℚ)) (ct : BoonType)
    (newId : String) (car : CarState) (filtered : List Boon)
    (hfeq : filtered =
      s.boons.filter (fun boon => decide (now - boon.spawnTime < boon.lifetime))) :
    (BOON_MAX_COUNT ≤ filtered.length →
      BoonManager.update M s now walls candidates ct newId =
        { s with boons := filtered }) ∧
    (¬ (filtered.length < BOON_MAX_COUNT ∧ now - s.lastSpawnTime ≥ s.spawnInterval) →
      BoonManager.update M s now walls candidates ct newId =
        { s with boons := filtered }) ∧
    (s.boons.length ≤ BOON_MAX_COUNT →
      (BoonManager.update M s now walls candidates ct newId).boons.length ≤
        BOON_MAX_COUNT) ∧
    (∀ bn, bn ∈ (BoonManager.update M s now walls candidates ct newId).boons →
      (now - bn.spawnTime < bn.lifetime ∨ bn.spawnTime = now)) ∧
    ((BoonManager.checkPickup M s car).1.boons.length ≤ s.boons.length) := by
  subst hfeq
  have hfle : (s.boons.filter
      (fun boon => decide (now - boon.spawnTime < boon.lifetime))).length ≤
      s.boons.length := List.length_filter_le _ _
  refine ⟨?_, ?_, ?_, ?_, ?_⟩
  · intro hge
    simp only [BoonManager.update]
    rw [if_neg (fun h => absurd h.1 (not_lt.mpr hge))]
  · intro hcond
    simp only [BoonManager.update]
    rw [if_neg hcond]
  · intro hle
    simp only [BoonManager.update]
    split_ifs with hcond
    · cases hs : BoonManager.trySpawnBoon M candidates ct newId now walls
          (s.boons.filter (fun boon => decide (now - boon.spawnTime < boon.lifetime))) with
      | none => simpa using le_trans hfle hle
      | some nb =>
        simp only [List.length_append, List.length_singleton]
        omega
    · simpa using le_trans hfle hle
  · intro bn hbn
    simp only [BoonManager.update] at hbn
    split_ifs at hbn with hcond
    · cases hs : BoonManager.trySpawnBoon M candidates ct newId now walls
          (s.boons.filter (fun boon => decide (now - boon.spawnTime < boon.lifetime))) with
      | none =>
        rw [hs] at hbn
        simp only at hbn
        left
        have := List.mem_filter.mp hbn
        exact of_decide_eq_true this.2
      | some nb =>
        rw [hs] at hbn
        simp only at hbn
        rcases List.mem_append.mp hbn with h | h
        · left
          have := List.mem_filter.mp h
          exact of_decide_eq_true this.2
        · right
          have hb : bn = nb := by simpa using h
          rw [hb]
          exact trySpawnBoon_spawnTime M candidates ct newId now walls _ nb hs
    · left
      have := List.mem_filter.mp hbn
      exact of_decide_eq_true this.2
  · simp only [BoonManager.checkPickup]
    split_ifs
    · exact le_refl _
    · exact pickupLoop_length M car s.boons

/-- Claim C8 witness: with three unexpired power-ups present (the maximum),
an update performs no spawn: the boon list and last spawn time are
unchanged. -/
theorem c8_witness :
    ((boonState3.boons.filter
        (fun boon => decide ((1000 : ℚ) - boon.spawnTime < boon.lifetime))) =
      [boonA, boonB, boonC] ∧
      BOON_MAX_COUNT ≤ ([boonA, boonB, boonC] : List Boon).length) ∧
    BoonManager.update unitJsMath boonState3 1000 [] [(600, 400)] BoonType.health
      "bn1" = { boonState3 with boons := [boonA, boonB, boonC] } := by
  have hfe : (boonState3.boons.filter
      (fun boon => decide ((1000 : ℚ) - boon.spawnTime < boon.lifetime))) =
      [boonA, boonB, boonC] := by
    norm_num [boonState3, boonA, boonB, boonC, List.filter_cons]
  have hge : BOON_MAX_COUNT ≤ ([boonA, boonB, boonC] : List Boon).length := by
    norm_num [BOON_MAX_COUNT]
  refine ⟨⟨hfe, hge⟩, ?_⟩
  have h := (c8_boon_spawn unitJsMath boonState3 1000 [] [(600, 400)]
    BoonType.health "bn1" shooterCar [boonA, boonB, boonC] hfe.symm).1 hge
  exact h

/-! Claim C9. -/

/-- Claim C9: a socket already queued is never enqueued a second time, and a
successful pairing always selects two distinct sockets and removes both from
the queue, so neither paired socket remains enqueued. -/
theorem c9_matchmaking (queue : List ℕ) (ws : ℕ) (rok jok : Bool)
    (q2 : List ℕ) (a b : ℕ) :
    (queue.contains ws = true →
      RoomManager.joinMatchmaking queue ws rok jok = (queue, none)) ∧
    (RoomManager.tryMatchPlayers queue ws rok jok = (q2, some (a, b)) →
      a ≠ b ∧ a ∉ q2 ∧ b ∉ q2) ∧
    (RoomManager.joinMatchmaking queue ws rok jok = (q2, some (a, b)) →
      a ≠ b ∧ a ∉ q2 ∧ b ∉ q2) := by
  have main : ∀ (q : List ℕ),
      RoomManager.tryMatchPlayers q ws rok jok = (q2, some (a, b)) →
      a ≠ b ∧ a ∉ q2 ∧ b ∉ q2 := by
    intro q h
    simp only [RoomManager.tryMatchPlayers] at h
    by_cases hlen : q.length < 2
    · rw [if_pos hlen] at h
      simp at h
    · rw [if_neg hlen] at h
      cases hf : q.find? (fun w => w ≠ ws) with
      | none =>
        rw [hf] at h
        simp at h
      | some otherWs =>
        rw [hf] at h
        have hne : otherWs ≠ ws := by
          have := List.find?_some hf
          simpa using this
        cases hrok : rok with
        | false =>
          rw [hrok] at h
          simp at h
        | true =>
          cases hjok : jok with
          | false =>
            rw [hrok, hjok] at h
            simp at h
          | true =>
            rw [hrok, hjok] at h
            simp only [if_true, Prod.mk.injEq, Option.some.injEq] at h
            rcases h with ⟨hq, ha, hb⟩
            subst ha
            subst hb
            subst hq
            refine ⟨hne, ?_, ?_⟩
            · intro hmem
              have := (List.mem_filter.mp hmem).2
              simp at this
            · intro hmem
              have := (List.mem_filter.mp (List.mem_filter.mp hmem).1).2
              simp at this
  refine ⟨?_, main queue, ?_⟩
  · intro h
    simp only [RoomManager.joinMatchmaking]
    rw [if_pos h]
  · intro h
    simp only [RoomManager.joinMatchmaking] at h
    split_ifs at h with hc
    · simp at h
    · exact main (queue ++ [ws]) h

/-- Claim C9 witness: socket 9 joins a queue holding socket 7; they are
paired, both leave the queue, and the pair is distinct. -/
theorem c9_witness :
    (RoomManager.joinMatchmaking [7] 9 true true = ([], some (7, 9))) ∧
    (7 ≠ 9 ∧ (7 : ℕ) ∉ ([] : List ℕ) ∧ (9 : ℕ) ∉ ([] : List ℕ)) := by
  have h : RoomManager.joinMatchmaking [7] 9 true true = ([], some (7, 9)) := by
    decide
  exact ⟨h, (c9_matchmaking [7] 9 true true [] 7 9).2.2 h⟩

/-! Claim C10. -/

/-- A hit returned by the player loop is in the list, alive, and not the
bullet's owner. -/
theorem bulletPlayersLoop_mem (b : Bullet) (l : List CarState) (t : CarState)
    (h : CombatSystem.bulletPlayersLoop b l = some t) :
    t ∈ l ∧ 0 < t.health ∧ t.id ≠ b.ownerId := by
  induction l with
  | nil => simp [CombatSystem.bulletPlayersLoop] at h
  | cons p rest ih =>
    simp only [CombatSystem.bulletPlayersLoop] at h
    split_ifs at h with h1 h2 h3
    · rcases ih h with ⟨hm, hh, hi⟩
      exact ⟨List.mem_cons_of_mem _ hm, hh, hi⟩
    · rcases ih h with ⟨hm, hh, hi⟩
      exact ⟨List.mem_cons_of_mem _ hm, hh, hi⟩
    · have hp : p = t := by simpa using h
      subst hp
      exact ⟨List.mem_cons_self _ _, not_le.mp h2, h1⟩
    · rcases ih h with ⟨hm, hh, hi⟩
      exact ⟨List.mem_cons_of_mem _ hm, hh, hi⟩

/-- find? by id commutes with mapping an id-preserving function. -/
theorem find?_map_preserving (h : CarState → CarState)
    (hid : ∀ q, (h q).id = q.id) (x : String) (l : List CarState) :
    (l.map h).find? (fun q => q.id = x) =
      (l.find? (fun q => q.id = x)).map h := by
  induction l with
  | nil => simp
  | cons p rest ih =>
    simp only [List.map_cons, List.find?]
    rw [hid p]
    cases hq : (decide (p.id = x)) with
    | true => simp
    | false => simpa using ih

/-- With pairwise distinct ids, find? by a member's id returns that member. -/
theorem find?_self_of_nodup (l : List CarState) (p : CarState)
    (hnd : (l.map (fun q => q.id)).Nodup) (hp : p ∈ l) :
    l.find? (fun q => q.id = p.id) = some p := by
  induction l with
  | nil => simp at hp
  | cons q rest ih =>
    simp only [List.map_cons, List.nodup_cons] at hnd
    rcases List.mem_cons.mp hp with hq | hq
    · subst hq
      simp [List.find?]
    · have hne : q.id ≠ p.id := by
        intro he
        exact hnd.1 (he ▸ List.mem_map_of_mem (fun r => r.id) hq)
      simp only [List.find?]
      rw [show (decide (q.id = p.id)) = false by simpa using hne]
      exact ih hnd.2 hq

/-- Claim C10: during bullet resolution a projectile never selects its owner
or an already dead player as target, and any player that is dead or is the
shooter keeps its health, shield and shield-recharge timer through the bullet
pass (only the shooter's score may change). -/
theorem c10_no_owner_or_corpse_damage (acc : CombatSystem.BulletPassState)
    (b0 : Bullet) (p : CarState)
    (hnodup : (acc.players.map (fun q => q.id)).Nodup) :
    (∀ t, CombatSystem.bulletPlayersLoop (CombatSystem.advanceBullet b0)
        acc.players = some t → t.id ≠ b0.ownerId ∧ 0 < t.health) ∧
    (p ∈ acc.players → (p.health ≤ 0 ∨ p.id = b0.ownerId) →
      ((CombatSystem.processBullet acc b0).1.players.find?
          (fun q => q.id = p.id)).map
        (fun q => (q.health, q.shield, q.shieldRechargeTimer)) =
      some (p.health, p.shield, p.shieldRechargeTimer)) := by
  constructor
  · intro t ht
    rcases bulletPlayersLoop_mem _ _ _ ht with ⟨_, hh, hi⟩
    exact ⟨hi, hh⟩
  · intro hp hcond
    have hfind : acc.players.find? (fun q => q.id = p.id) = some p :=
      find?_self_of_nodup acc.players p hnodup hp
    have hunchanged : ∀ (l : List CarState),
        (CombatSystem.processBullet acc b0).1.players = acc.players →
        ((CombatSystem.processBullet acc b0).1.players.find?
            (fun q => q.id = p.id)).map
          (fun q => (q.health, q.shield, q.shieldRechargeTimer)) =
        some (p.health, p.shield, p.shieldRechargeTimer) := by
      intro _ he
      rw [he, hfind]
      rfl
    by_cases hoob : CollisionSystem.isBulletOutOfBounds
        (CombatSystem.advanceBullet b0) GAME_WIDTH GAME_HEIGHT = true
    · apply hunchanged []
      simp only [CombatSystem.processBullet, hoob]
      simp
    · have hoobf : CollisionSystem.isBulletOutOfBounds
          (CombatSystem.advanceBullet b0) GAME_WIDTH GAME_HEIGHT = false := by
        cases hx : CollisionSystem.isBulletOutOfBounds
            (CombatSystem.advanceBullet b0) GAME_WIDTH GAME_HEIGHT
        · rfl
        · exact absurd hx hoob
      cases hl : CombatSystem.bulletWallsLoop (CombatSystem.advanceBullet b0)
          acc.wallsToRemove acc.walls with
      | some r =>
        apply hunchanged []
        simp only [CombatSystem.processBullet, hoobf, hl]
        simp
      | none =>
        cases hpl : CombatSystem.bulletPlayersLoop (CombatSystem.advanceBullet b0)
            acc.players with
        | none =>
          apply hunchanged []
          simp only [CombatSystem.processBullet, hoobf, hl, hpl]
          simp
        | some t =>
          rcases bulletPlayersLoop_mem _ _ _ hpl with ⟨htmem, hth, hti⟩
          have hidne : p.id ≠ t.id := by
            intro he
            have : p = t := by
              have hinj := List.inj_on_of_nodup_map hnodup
              exact hinj hp htmem he
            rcases hcond with hdead | howner
            · rw [this] at hdead
              exact absurd hdead (not_le.mpr hth)
            · rw [← this] at hti
              exact hti howner
          have hplayers : (CombatSystem.processBullet acc b0).1.players =
              CombatSystem.applyDamage (CombatSystem.advanceBullet b0) t acc.players := by
            simp only [CombatSystem.processBullet, hoobf, hl, hpl]
            simp
          rw [hplayers]
          simp only [CombatSystem.applyDamage]
          rw [find?_map_preserving _ (by intro q; split_ifs <;> rfl) p.id]
          rw [find?_map_preserving _ (by
            intro q
            split_ifs with hq
            · simp [applyDamageToTarget_eq, hq]
            · rfl) p.id]
          rw [hfind]
          simp only [Option.map_some']
          rw [if_neg hidne]
          by_cases hsc : p.id = (CombatSystem.advanceBullet b0).ownerId
          · rw [if_pos hsc]
          · rw [if_neg hsc]

def deadCar : CarState := testCar "p6" 600 400 0 0

def c10Bullet : Bullet := testBullet "b5" "p1" 600 400 15

def c10Acc : CombatSystem.BulletPassState := ⟨[shooterCar, deadCar], [], [], [], []⟩

/-- Claim C10 witness: a projectile sitting on top of a dead player (and owned
by the other player) changes neither the dead player's health, shield nor
recharge timer during the bullet pass. -/
theorem c10_witness :
    ((c10Acc.players.map (fun q => q.id)).Nodup ∧ deadCar ∈ c10Acc.players ∧
      deadCar.health ≤ 0) ∧
    ((CombatSystem.processBullet c10Acc c10Bullet).1.players.find?
        (fun q => q.id = deadCar.id)).map
      (fun q => (q.health, q.shield, q.shieldRechargeTimer)) =
    some (deadCar.health, deadCar.shield, deadCar.shieldRechargeTimer) := by
  have hnd : (c10Acc.players.map (fun q => q.id)).Nodup := by
    simp [c10Acc, shooterCar, deadCar, testCar]
  have hmem : deadCar ∈ c10Acc.players := by
    simp [c10Acc]
  have hdead : deadCar.health ≤ 0 := by
    norm_num [deadCar, testCar]
  refine ⟨⟨hnd, hmem, hdead⟩, ?_⟩
  exact (c10_no_owner_or_corpse_damage c10Acc c10Bullet deadCar hnd).2 hmem
    (Or.inl hdead)

end CarCombat
